import Mathlib

/-!
Verification development for the FalconResQ ground-station console.

This file gives a shallow embedding of the parts of the repository that the
checked claims are about:

* `config.py` constants (thresholds, status strings, sector size, intervals);
* `utils/helpers.py` — `calculate_priority`;
* `modules/serial_reader.py` — `_parse_packet` / `_validate_packet`
  (the external JSON decoder is modelled by a small JSON value type, and the
  Python builtin coercions `int()` / `float()` / `str()` by executable
  functions on that type);
* `modules/data_manager.py` — the `DataManager` store with its operations
  (`add_or_update_victim`, `mark_enroute`, `mark_rescued`, `delete_victim`,
  `reset_all_data`, `save_to_file`, `load_from_file`, `_auto_save`,
  `get_statistics`, `get_geographic_clusters`);
* `modules/analytics.py` — `analyze_geographic_density`;
* `_pages/dashboard.py` — the rescue-toggle undo branch.

Python floats are modelled as `ℚ`, Python ints as `Int`, dictionaries keyed
by victim ID as insertion-ordered association lists, and wall-clock time as a
rational number of seconds (for the auto-save gate) together with an opaque
timestamp string (for record fields).  The on-disk backup file is modelled as
an `Option` snapshot carried in the store state, and successful disk writes
are additionally recorded in a trace field `saveTimes` so that persistence
claims can be stated; disk-write failures are modelled by a boolean oracle
passed to each mutating operation.
-/

namespace FalconResQ

/-! ### config.py constants -/

def RSSI_STRONG_THRESHOLD : Int := -70

def RSSI_WEAK_THRESHOLD : Int := -85

def TIME_CRITICAL_THRESHOLD : ℚ := 15

def BACKUP_INTERVAL_SECONDS : ℚ := 30

def STATUS_STRANDED : String := "STRANDED"

def STATUS_EN_ROUTE : String := "EN_ROUTE"

def STATUS_RESCUED : String := "RESCUED"

def ALL_STATUSES : List String := [STATUS_STRANDED, STATUS_EN_ROUTE, STATUS_RESCUED]

def MIN_VICTIM_ID : Int := 1

def MAX_VICTIM_ID : Int := 9999

def VALID_LAT_MIN : ℚ := -90

def VALID_LAT_MAX : ℚ := 90

def VALID_LON_MIN : ℚ := -180

def VALID_LON_MAX : ℚ := 180

def SECTOR_SIZE_LAT : ℚ := 1/1000

/-! ### utils/helpers.py — calculate_priority

`calculate_priority(victim_data, ...)` reads the record's `RSSI` and the
minutes elapsed since `LAST_UPDATE` (0 when the field is absent or does not
parse) and classifies the victim.  We split the function into the elapsed-time
defaulting step and the pure threshold classification. -/

/-- The elapsed-minutes value used by `calculate_priority`: the parsed elapsed
time when `LAST_UPDATE` is present and parsable, `0` otherwise
(`helpers.py` lines 77–84). -/
def effectiveMinutes (parsedElapsed : Option ℚ) : ℚ := parsedElapsed.getD 0

/-- `helpers.calculate_priority` (lines 86–96): the threshold comparison
chain, returning `(priority_level, priority_label)`. -/
def calculate_priority (rssi : Int) (minutes : ℚ)
    (rssiStrong rssiWeak : Int) (timeCritical : ℚ) : String × String :=
  if rssi < rssiWeak ∨ minutes > timeCritical then ("HIGH", "Critical")
  else if rssiWeak ≤ rssi ∧ rssi < rssiStrong ∧ minutes ≤ timeCritical then
    ("MEDIUM", "Standard")
  else ("LOW", "Stable")

/-- `calculate_priority` as applied to a record: the elapsed minutes are
defaulted to 0 when `LAST_UPDATE` is absent or unparsable. -/
def calculate_priority_of (rssi : Int) (parsedElapsed : Option ℚ)
    (rssiStrong rssiWeak : Int) (timeCritical : ℚ) : String × String :=
  calculate_priority rssi (effectiveMinutes parsedElapsed) rssiStrong rssiWeak timeCritical

/-! ### Data model -/

/-- A packet as produced by `SerialReader._parse_packet`: coerced `ID`,
`LAT`, `LON`, `TIME`, and `RSSI` (defaulted to `-999` when absent). -/
structure Packet where
  id : Int
  lat : ℚ
  lon : ℚ
  time : String
  rssi : Int
deriving Repr, DecidableEq

/-- A victim record, the value stored under `self.victims[ID]`
(`data_manager.py` lines 75–89).  `ENROUTE_TIME` is absent from a fresh
record and set by `mark_enroute`; `RESCUED_TIME`/`RESCUED_BY` start as
`None`. -/
structure Victim where
  id : Int
  lat : ℚ
  lon : ℚ
  time : String
  rssi : Int
  status : String
  firstDetected : String
  lastUpdate : String
  enrouteTime : Option String
  rescuedTime : Option String
  rescuedBy : Option String
  updateCount : Int
  rssiHistory : List Int
  notes : String
deriving Repr, DecidableEq

/-- The `DataManager` state: the victim table (a Python dict keyed by integer
ID, modelled as an insertion-ordered association list), the
`last_backup_time` marker, the content of the backup file
(`none` = file absent), and a trace of successful save times used to state
persistence claims. -/
structure DataManager where
  victims : List (Int × Victim)
  lastBackupTime : Option ℚ
  disk : Option (List (Int × Victim))
  saveTimes : List ℚ
deriving Repr, DecidableEq

/-- `DataManager.__init__`: empty table, no backup yet; the backup file is
taken to be absent initially. -/
def initDM : DataManager :=
  { victims := [], lastBackupTime := none, disk := none, saveTimes := [] }

/-! Association-list operations mirroring Python dict behaviour: lookup by
key, in-place value replacement (the key keeps its position), append of a new
key, and deletion. -/

def alookup (k : Int) : List (Int × Victim) → Option Victim
  | [] => none
  | (k', v) :: rest => if k' = k then some v else alookup k rest

def aupdate (k : Int) (f : Victim → Victim) : List (Int × Victim) → List (Int × Victim)
  | [] => []
  | (k', v) :: rest => if k' = k then (k', f v) :: rest else (k', v) :: aupdate k f rest

def aremove (k : Int) : List (Int × Victim) → List (Int × Victim)
  | [] => []
  | (k', v) :: rest => if k' = k then rest else (k', v) :: aremove k rest

/-! ### data_manager.py — persistence primitives -/

/-- `DataManager.save_to_file` (lines 342–369): writes the victim table to the
backup file and records `last_backup_time` on success.  The I/O outcome is an
oracle `ok`; on failure the state is unchanged and `False` is returned. -/
def saveToFile (dm : DataManager) (now : ℚ) (ok : Bool) : DataManager × Bool :=
  if ok then
    ({ dm with disk := some dm.victims, lastBackupTime := some now,
               saveTimes := dm.saveTimes ++ [now] }, true)
  else (dm, false)

/-- `DataManager._auto_save` (lines 458–471): save only when no backup has
succeeded yet, or at least `BACKUP_INTERVAL_SECONDS` have elapsed since the
last successful save. -/
def autoSave (dm : DataManager) (now : ℚ) (ok : Bool) : DataManager :=
  match dm.lastBackupTime with
  | none => (saveToFile dm now ok).1
  | some t =>
    if now - t ≥ BACKUP_INTERVAL_SECONDS then (saveToFile dm now ok).1 else dm

/-- `DataManager.load_from_file` (lines 371–401): fails when the backup file
is absent, otherwise replaces the in-memory table with the file's content
(string keys converted back to integers; our snapshot is already typed). -/
def loadFromFile (dm : DataManager) : DataManager × Bool :=
  match dm.disk with
  | none => (dm, false)
  | some data => ({ dm with victims := data }, true)

/-! ### data_manager.py — mutating operations

Each operation takes the wall-clock time both as the timestamp string
`nowStr` written into record fields and as the rational `now` used by the
auto-save gate, plus the disk-write oracle `ok`. -/

/-- `DataManager.add_or_update_victim` (lines 37–98). -/
def addOrUpdateVictim (dm : DataManager) (p : Packet) (nowStr : String)
    (now : ℚ) (ok : Bool) : DataManager × Bool :=
  match alookup p.id dm.victims with
  | some _ =>
    let victims' := aupdate p.id (fun v =>
      let hist := v.rssiHistory ++ [p.rssi]
      let hist := if hist.length > 20 then hist.drop (hist.length - 20) else hist
      { v with lat := p.lat, lon := p.lon, time := p.time, rssi := p.rssi,
               lastUpdate := nowStr, updateCount := v.updateCount + 1,
               rssiHistory := hist }) dm.victims
    (autoSave { dm with victims := victims' } now ok, true)
  | none =>
    let newV : Victim :=
      { id := p.id, lat := p.lat, lon := p.lon, time := p.time, rssi := p.rssi,
        status := STATUS_STRANDED, firstDetected := nowStr, lastUpdate := nowStr,
        enrouteTime := none, rescuedTime := none, rescuedBy := none,
        updateCount := 1, rssiHistory := [p.rssi], notes := "" }
    (autoSave { dm with victims := dm.victims ++ [(p.id, newV)] } now ok, true)

/-- `DataManager.mark_enroute` (lines 100–124): no status precondition — any
existing record is set to `EN_ROUTE`. -/
def markEnroute (dm : DataManager) (vid : Int) (nowStr : String)
    (now : ℚ) (ok : Bool) : DataManager × Bool :=
  match alookup vid dm.victims with
  | none => (dm, false)
  | some _ =>
    let victims' := aupdate vid
      (fun v => { v with status := STATUS_EN_ROUTE, enrouteTime := some nowStr })
      dm.victims
    (autoSave { dm with victims := victims' } now ok, true)

/-- `DataManager.mark_rescued` (lines 126–162).  The CSV rescue-log append
(`_log_rescue`) is an external file side effect not modelled here. -/
def markRescued (dm : DataManager) (vid : Int) (operator notes : String)
    (nowStr : String) (now : ℚ) (ok : Bool) : DataManager × Bool :=
  match alookup vid dm.victims with
  | none => (dm, false)
  | some _ =>
    let victims' := aupdate vid
      (fun v => { v with status := STATUS_RESCUED, rescuedTime := some nowStr,
                         rescuedBy := some operator, notes := notes })
      dm.victims
    (autoSave { dm with victims := victims' } now ok, true)

/-- `DataManager.delete_victim` (lines 308–324). -/
def deleteVictim (dm : DataManager) (vid : Int) (now : ℚ) (ok : Bool) :
    DataManager × Bool :=
  match alookup vid dm.victims with
  | none => (dm, false)
  | some _ => (autoSave { dm with victims := aremove vid dm.victims } now ok, true)

/-- `DataManager.reset_all_data` (lines 326–340): clears the table, then runs
the auto-save check. -/
def resetAllData (dm : DataManager) (now : ℚ) (ok : Bool) : DataManager × Bool :=
  (autoSave { dm with victims := [] } now ok, true)

/-- The dashboard rescue-checkbox undo branch (`_pages/dashboard.py` lines
169–175), executed when the box is unchecked on a currently-`RESCUED`
record: status back to `STRANDED`, rescue timestamp and attribution cleared,
then `_auto_save`. -/
def dashboardUndoRescue (dm : DataManager) (vid : Int) (now : ℚ) (ok : Bool) :
    DataManager :=
  let victims' := aupdate vid
    (fun v => { v with status := STATUS_STRANDED, rescuedTime := none,
                       rescuedBy := none })
    dm.victims
  autoSave { dm with victims := victims' } now ok

/-! ### data_manager.py — queries -/

/-- The result of `DataManager.get_statistics` (lines 200–222). -/
structure Statistics where
  total : Nat
  stranded : Nat
  enroute : Nat
  rescued : Nat
  strandedPct : ℚ
  enroutePct : ℚ
  rescuedPct : ℚ
deriving Repr, DecidableEq

/-- `DataManager.get_statistics`. -/
def getStatistics (dm : DataManager) : Statistics :=
  let total := dm.victims.length
  let stranded := (dm.victims.filter (fun kv => kv.2.status == STATUS_STRANDED)).length
  let enroute := (dm.victims.filter (fun kv => kv.2.status == STATUS_EN_ROUTE)).length
  let rescued := (dm.victims.filter (fun kv => kv.2.status == STATUS_RESCUED)).length
  { total := total, stranded := stranded, enroute := enroute, rescued := rescued,
    strandedPct := if total > 0 then (stranded : ℚ) / (total : ℚ) * 100 else 0,
    enroutePct := if total > 0 then (enroute : ℚ) / (total : ℚ) * 100 else 0,
    rescuedPct := if total > 0 then (rescued : ℚ) / (total : ℚ) * 100 else 0 }

/-- Python `int()` applied to a rational (float) value: truncation toward
zero. -/
def ratTrunc (q : ℚ) : Int := q.num.tdiv q.den

/-- The sector key computed inside `DataManager.get_geographic_clusters`
(lines 270–274): `sector_lat = int(LAT / sector_size)`,
`sector_lon = int(LON / sector_size)`, rendered as
`f"{sector_lat},{sector_lon}"`. -/
def sectorId (lat lon s : ℚ) : String :=
  toString (ratTrunc (lat / s)) ++ "," ++ toString (ratTrunc (lon / s))

/-- Append `vid` to the cluster stored under `key` (Python
`defaultdict(list)`; a fresh key is appended at the end, preserving insertion
order). -/
def addToCluster (key : String) (vid : Int) :
    List (String × List Int) → List (String × List Int)
  | [] => [(key, [vid])]
  | (k, vs) :: rest =>
    if k = key then (k, vs ++ [vid]) :: rest else (k, vs) :: addToCluster key vid rest

/-- Look a cluster up by sector key (`[]` when absent, as for a
`defaultdict`). -/
def lookupCluster (cs : List (String × List Int)) (key : String) : List Int :=
  match cs with
  | [] => []
  | (k, vs) :: rest => if k = key then vs else lookupCluster rest key

/-- `DataManager.get_geographic_clusters` (lines 254–278): every record is
grouped — there is no coordinate filtering. -/
def getGeographicClusters (dm : DataManager) (s : ℚ) : List (String × List Int) :=
  dm.victims.foldl
    (fun acc kv => addToCluster (sectorId kv.2.lat kv.2.lon s) kv.1 acc) []

/-- Per-sector breakdown produced by `Analytics.analyze_geographic_density`. -/
structure SectorStats where
  total : Nat
  stranded : Nat
  rescued : Nat
  enroute : Nat
  rescuePercentage : ℚ
deriving Repr, DecidableEq

/-- Result of `Analytics.analyze_geographic_density`. -/
structure DensityAnalysis where
  totalSectors : Nat
  sectors : List (String × SectorStats)
  highestDensitySector : Option String
  highestDensityCount : Nat
deriving Repr, DecidableEq

/-- `Analytics.analyze_geographic_density` (`analytics.py` lines 108–169):
clusters come straight from `get_geographic_clusters` with the default
sector size; no record is excluded on coordinates. -/
def analyzeGeographicDensity (dm : DataManager) : DensityAnalysis :=
  if dm.victims.isEmpty then
    { totalSectors := 0, sectors := [], highestDensitySector := none,
      highestDensityCount := 0 }
  else
    let clusters := getGeographicClusters dm SECTOR_SIZE_LAT
    let sectorAnalysis := clusters.map (fun c =>
      let found := c.2.filterMap (fun vid => alookup vid dm.victims)
      let stranded := (found.filter (fun v => v.status == STATUS_STRANDED)).length
      let rescued := (found.filter (fun v => v.status == STATUS_RESCUED)).length
      let enroute := (found.filter (fun v => v.status == STATUS_EN_ROUTE)).length
      let total := c.2.length
      (c.1, { total := total, stranded := stranded, rescued := rescued,
              enroute := enroute,
              rescuePercentage :=
                if total > 0 then (rescued : ℚ) / (total : ℚ) * 100 else 0
              : SectorStats }))
    let best := clusters.foldl
      (fun (acc : Option String × Nat) c =>
        if c.2.length > acc.2 then (some c.1, c.2.length) else acc)
      (none, 0)
    { totalSectors := clusters.length, sectors := sectorAnalysis,
      highestDensitySector := best.1, highestDensityCount := best.2 }

/-! ### serial_reader.py — packet parsing

`_parse_packet` strips the line, rejects lines not starting with `{`, decodes
JSON, coerces `ID`/`LAT`/`LON`/`TIME` with the Python builtins
`int()`/`float()`/`str()` (rejecting when a coercion raises), coerces `RSSI`
to `int` when present (defaulting to `-999` when absent), and finally runs
`_validate_packet`.  The third-party JSON decoder is modelled by a small JSON
value type; the decoder's outcome on the raw line is passed in as an
`Option` (a trimmed line that starts with `{` and is valid JSON necessarily
decodes to an object, so the decoded form is an association list of fields;
objects with duplicate keys collapse to their resulting map and are treated
as having unique keys here). -/

/-- Python `str.strip()` as used on the raw serial line and inside the
numeric string coercions: drop leading and trailing whitespace. -/
def pyStrip (s : String) : String :=
  ⟨((s.data.dropWhile fun c => c.isWhitespace).reverse.dropWhile
      fun c => c.isWhitespace).reverse⟩

/-- `data_string.startswith('\x7b')`: the stripped line must open with a
left brace. -/
def startsWithLBrace (s : String) : Bool :=
  match s.data with
  | [] => false
  | c :: _ => c == '\x7b'

/-- A decoded JSON value as produced by `json.loads`: integer literals decode
to Python `int`, other numeric literals to `float` (modelled by `ℚ`). -/
inductive JVal where
  | jint (n : Int)
  | jfloat (q : ℚ)
  | jstr (s : String)
  | jbool (b : Bool)
  | jnull
  | jarr (xs : List JVal)
  | jobj (fields : List (String × JVal))

/-- Field lookup in a decoded JSON object (`packet['ID']`, `'ID' in packet`). -/
def jget (fields : List (String × JVal)) (k : String) : Option JVal :=
  match fields with
  | [] => none
  | (k', v) :: rest => if k' = k then some v else jget rest k

/-- Python `int(s)` on a string: optional surrounding whitespace, optional
sign, a nonempty digit run (the underscore-separator and non-decimal forms
accepted by Python are outside the data this system sees and are not
modelled). -/
def pyIntOfString (s : String) : Option Int :=
  let digitsVal (l : List Char) : Option Nat :=
    if l ≠ [] ∧ l.all (fun c => c.isDigit) then
      some (l.foldl (fun acc c => acc * 10 + (c.toNat - ('0').toNat)) 0)
    else none
  match (pyStrip s).data with
  | '-' :: rest => (digitsVal rest).map (fun n => -(n : Int))
  | '+' :: rest => (digitsVal rest).map (fun n => (n : Int))
  | l => (digitsVal l).map (fun n => (n : Int))

/-- Python `float(s)` on a string: optional sign and a decimal literal with
digits on at least one side of an optional point (the exponent and
`inf`/`nan` forms are outside the data this system sees and are not
modelled). -/
def pyFloatOfString (s : String) : Option ℚ :=
  let digitsVal (l : List Char) : Nat :=
    l.foldl (fun acc c => acc * 10 + (c.toNat - ('0').toNat)) 0
  let core (l : List Char) : Option ℚ :=
    let intPart := l.takeWhile (fun c => c.isDigit)
    let rest := l.dropWhile (fun c => c.isDigit)
    match rest with
    | [] => if intPart ≠ [] then some ((digitsVal intPart : ℚ)) else none
    | '.' :: frac =>
      if frac.all (fun c => c.isDigit) ∧ (intPart ≠ [] ∨ frac ≠ []) then
        some ((digitsVal intPart : ℚ) +
          (digitsVal frac : ℚ) / ((10 : ℚ) ^ frac.length))
      else none
    | _ => none
  match (pyStrip s).data with
  | '-' :: rest => (core rest).map (fun q => -q)
  | '+' :: rest => core rest
  | l => core l

/-- Python `int(v)` on a decoded JSON value: ints pass through, floats
truncate toward zero, strings parse as integer literals, booleans map to
0/1; `None`, arrays and objects raise `TypeError`. -/
def pyInt : JVal → Option Int
  | .jint n => some n
  | .jfloat q => some (ratTrunc q)
  | .jstr s => pyIntOfString s
  | .jbool b => some (if b then 1 else 0)
  | .jnull => none
  | .jarr _ => none
  | .jobj _ => none

/-- Python `float(v)` on a decoded JSON value. -/
def pyFloat : JVal → Option ℚ
  | .jint n => some n
  | .jfloat q => some q
  | .jstr s => pyFloatOfString s
  | .jbool b => some (if b then 1 else 0)
  | .jnull => none
  | .jarr _ => none
  | .jobj _ => none

/-- Python `str(v)`: total — it never raises, so `TIME` coercion cannot
reject a packet.  The rendering of non-string values approximates Python's
(no claim inspects it). -/
def pyStr : JVal → String
  | .jstr s => s
  | .jint n => toString n
  | .jfloat q => toString q
  | .jbool b => if b then "True" else "False"
  | .jnull => "None"
  | .jarr _ => "[list]"
  | .jobj _ => "\x7bdict\x7d"

/-- `SerialReader._validate_packet` (lines 248–275): ID range, latitude and
longitude ranges; RSSI is deliberately not checked. -/
def validatePacket (p : Packet) : Bool :=
  if p.id < MIN_VICTIM_ID ∨ p.id > MAX_VICTIM_ID then false
  else if ¬ (VALID_LAT_MIN ≤ p.lat ∧ p.lat ≤ VALID_LAT_MAX) then false
  else if ¬ (VALID_LON_MIN ≤ p.lon ∧ p.lon ≤ VALID_LON_MAX) then false
  else true

/-- The `RSSI` handling of `_parse_packet` (lines 224–228): coerce when
present, default to `-999` when absent. -/
def rssiField (obj : List (String × JVal)) : Option Int :=
  match jget obj "RSSI" with
  | some rv => pyInt rv
  | none => some (-999)

/-- `SerialReader._parse_packet` (lines 185–246).  `raw` is the line read
from the serial port; `decoded` is the JSON decoder's output on the trimmed
line (`none` when it is not valid JSON). -/
def parsePacket (raw : String) (decoded : Option (List (String × JVal))) :
    Option Packet :=
  if ¬ startsWithLBrace (pyStrip raw) then none
  else
    match decoded with
    | none => none
    | some obj =>
      match jget obj "ID", jget obj "LAT", jget obj "LON", jget obj "TIME" with
      | some idv, some latv, some lonv, some timev =>
        match pyInt idv, pyFloat latv, pyFloat lonv, rssiField obj with
        | some idn, some lat, some lon, some r =>
          let p : Packet :=
            { id := idn, lat := lat, lon := lon, time := pyStr timev, rssi := r }
          if validatePacket p then some p else none
        | _, _, _, _ => none
      | _, _, _, _ => none

/-! ### Reachability

Two operation sets are considered.  `ReachableStore` closes `initDM` under
the store's own mutators (claim set: `add_or_update_victim`, `mark_enroute`,
`mark_rescued`, `delete_victim`, `reset_all_data`).  `ReachableD` closes it
under the system operations named by the status claims: packet ingestion,
`mark_enroute`, `mark_rescued`, and the dashboard rescue toggle (whose two
branches run only when the record is respectively not rescued / rescued).
`ReachableDGuarded` is `ReachableD` with `mark_enroute` restricted to
records that are not currently `RESCUED`. -/

inductive ReachableStore : DataManager → Prop where
  | init : ReachableStore initDM
  | add (dm : DataManager) (p : Packet) (nowStr : String) (now : ℚ) (ok : Bool) :
      ReachableStore dm → ReachableStore (addOrUpdateVictim dm p nowStr now ok).1
  | enroute (dm : DataManager) (vid : Int) (nowStr : String) (now : ℚ) (ok : Bool) :
      ReachableStore dm → ReachableStore (markEnroute dm vid nowStr now ok).1
  | rescued (dm : DataManager) (vid : Int) (operator notes nowStr : String)
      (now : ℚ) (ok : Bool) :
      ReachableStore dm →
      ReachableStore (markRescued dm vid operator notes nowStr now ok).1
  | del (dm : DataManager) (vid : Int) (now : ℚ) (ok : Bool) :
      ReachableStore dm → ReachableStore (deleteVictim dm vid now ok).1
  | reset (dm : DataManager) (now : ℚ) (ok : Bool) :
      ReachableStore dm → ReachableStore (resetAllData dm now ok).1

inductive ReachableD : DataManager → Prop where
  | init : ReachableD initDM
  | add (dm : DataManager) (p : Packet) (nowStr : String) (now : ℚ) (ok : Bool) :
      ReachableD dm → ReachableD (addOrUpdateVictim dm p nowStr now ok).1
  | enroute (dm : DataManager) (vid : Int) (nowStr : String) (now : ℚ) (ok : Bool) :
      ReachableD dm → ReachableD (markEnroute dm vid nowStr now ok).1
  | rescued (dm : DataManager) (vid : Int) (operator notes nowStr : String)
      (now : ℚ) (ok : Bool) :
      ReachableD dm →
      ReachableD (markRescued dm vid operator notes nowStr now ok).1
  | toggleRescue (dm : DataManager) (vid : Int) (nowStr : String) (now : ℚ) (ok : Bool) :
      (∀ v, alookup vid dm.victims = some v → v.status ≠ STATUS_RESCUED) →
      ReachableD dm →
      ReachableD (markRescued dm vid "Dashboard Action" "" nowStr now ok).1
  | toggleUndo (dm : DataManager) (vid : Int) (now : ℚ) (ok : Bool) (v : Victim) :
      alookup vid dm.victims = some v → v.status = STATUS_RESCUED →
      ReachableD dm → ReachableD (dashboardUndoRescue dm vid now ok)

inductive ReachableDGuarded : DataManager → Prop where
  | init : ReachableDGuarded initDM
  | add (dm : DataManager) (p : Packet) (nowStr : String) (now : ℚ) (ok : Bool) :
      ReachableDGuarded dm → ReachableDGuarded (addOrUpdateVictim dm p nowStr now ok).1
  | enroute (dm : DataManager) (vid : Int) (nowStr : String) (now : ℚ) (ok : Bool) :
      (∀ v, alookup vid dm.victims = some v → v.status ≠ STATUS_RESCUED) →
      ReachableDGuarded dm → ReachableDGuarded (markEnroute dm vid nowStr now ok).1
  | rescued (dm : DataManager) (vid : Int) (operator notes nowStr : String)
      (now : ℚ) (ok : Bool) :
      ReachableDGuarded dm →
      ReachableDGuarded (markRescued dm vid operator notes nowStr now ok).1
  | toggleUndo (dm : DataManager) (vid : Int) (now : ℚ) (ok : Bool) (v : Victim) :
      alookup vid dm.victims = some v → v.status = STATUS_RESCUED →
      ReachableDGuarded dm → ReachableDGuarded (dashboardUndoRescue dm vid now ok)

/-! ### Spec-side definition for the sector-key refinement claim -/

/-- Modelled from the spec's words (§3 "Sector"): the grouping key
`floor(LAT / sectorSize), floor(LON / sectorSize)` rendered as
`"<latSector>,<lonSector>"` — rounding toward negative infinity.  Stated for
comparison with `sectorId`, which embeds the source's `int()` truncation. -/
def sectorIdFloorSpec (lat lon s : ℚ) : String :=
  toString ⌊lat / s⌋ ++ "," ++ toString ⌊lon / s⌋

/-! ### Statement-side definitions

These phrase conditions from the claims (not from the source) so that the
source-embedded functions above can be compared against them. -/

/-- The auto-save gate condition as the claims phrase it: no successful save
has occurred yet, or at least 30 seconds have elapsed since the last
successful save. -/
def gateOpenSpec (dm : DataManager) (now : ℚ) : Prop :=
  dm.lastBackupTime = none ∨
    ∃ t, dm.lastBackupTime = some t ∧ now - t ≥ BACKUP_INTERVAL_SECONDS

/-- Number of table entries carrying a given ID. -/
def countId (l : List (Int × Victim)) (k : Int) : Nat :=
  (l.map Prod.fst).count k

/-- Total number of victim IDs held across all clusters. -/
def clusterTotal (cs : List (String × List Int)) : Nat :=
  (cs.map (fun c => c.2.length)).sum

/-! ## Lemmas about the association-list table -/

theorem alookup_mem {k : Int} {l : List (Int × Victim)} {v : Victim}
    (h : alookup k l = some v) : (k, v) ∈ l := by
  induction l with
  | nil => simp [alookup] at h
  | cons kv rest ih =>
    obtain ⟨k', w⟩ := kv
    by_cases hk : k' = k
    · subst hk
      simp [alookup] at h
      simp [h]
    · simp [alookup, hk] at h
      exact List.mem_cons_of_mem _ (ih h)

theorem alookup_eq_none_iff {k : Int} {l : List (Int × Victim)} :
    alookup k l = none ↔ ∀ kv ∈ l, kv.1 ≠ k := by
  induction l with
  | nil => simp [alookup]
  | cons kv rest ih =>
    obtain ⟨k', w⟩ := kv
    by_cases hk : k' = k
    · subst hk
      simp [alookup]
    · simp [alookup, hk, ih]

theorem aupdate_keys (k : Int) (f : Victim → Victim) (l : List (Int × Victim)) :
    (aupdate k f l).map Prod.fst = l.map Prod.fst := by
  induction l with
  | nil => rfl
  | cons kv rest ih =>
    obtain ⟨k', w⟩ := kv
    by_cases hk : k' = k <;> simp [aupdate, hk, ih]

theorem alookup_aupdate_self {k : Int} {l : List (Int × Victim)} {v : Victim}
    (f : Victim → Victim) (h : alookup k l = some v) :
    alookup k (aupdate k f l) = some (f v) := by
  induction l with
  | nil => simp [alookup] at h
  | cons kv rest ih =>
    obtain ⟨k', w⟩ := kv
    by_cases hk : k' = k
    · subst hk
      simp [alookup] at h
      subst h
      simp [aupdate, alookup]
    · simp [alookup, hk] at h
      simp [aupdate, alookup, hk, ih h]

theorem alookup_aupdate_of_ne {j k : Int} (hjk : j ≠ k) (f : Victim → Victim)
    (l : List (Int × Victim)) : alookup j (aupdate k f l) = alookup j l := by
  induction l with
  | nil => rfl
  | cons kv rest ih =>
    obtain ⟨k', w⟩ := kv
    by_cases hk : k' = k
    · have hkj : k ≠ j := fun h => hjk h.symm
      simp [aupdate, alookup, hk, hkj]
    · by_cases hj : k' = j <;> simp [aupdate, alookup, hk, hj, hjk, ih]

theorem mem_aupdate {k : Int} {f : Victim → Victim} {l : List (Int × Victim)}
    {kv : Int × Victim} (h : kv ∈ aupdate k f l) :
    kv ∈ l ∨ ∃ w, alookup k l = some w ∧ kv = (k, f w) := by
  induction l with
  | nil => simp [aupdate] at h
  | cons hd rest ih =>
    obtain ⟨k', w⟩ := hd
    by_cases hk : k' = k
    · subst hk
      simp only [aupdate, if_pos rfl] at h
      rcases List.mem_cons.mp h with h | h
      · exact Or.inr ⟨w, by simp [alookup], h⟩
      · exact Or.inl (List.mem_cons_of_mem _ h)
    · simp only [aupdate, if_neg hk] at h
      rcases List.mem_cons.mp h with h | h
      · exact Or.inl (by simp [h])
      · rcases ih h with h' | ⟨w', hw', hkv⟩
        · exact Or.inl (List.mem_cons_of_mem _ h')
        · exact Or.inr ⟨w', by simp [alookup, hk, hw'], hkv⟩

theorem mem_aremove {k : Int} {l : List (Int × Victim)} {kv : Int × Victim}
    (h : kv ∈ aremove k l) : kv ∈ l := by
  induction l with
  | nil => simp [aremove] at h
  | cons hd rest ih =>
    obtain ⟨k', w⟩ := hd
    by_cases hk : k' = k
    · subst hk
      simp only [aremove, if_pos rfl] at h
      exact List.mem_cons_of_mem _ h
    · simp only [aremove, if_neg hk] at h
      rcases List.mem_cons.mp h with h | h
      · simp [h]
      · exact List.mem_cons_of_mem _ (ih h)

theorem alookup_append_single (j k : Int) (v : Victim) (l : List (Int × Victim)) :
    alookup j (l ++ [(k, v)]) =
      match alookup j l with
      | some w => some w
      | none => if k = j then some v else none := by
  induction l with
  | nil => simp [alookup]
  | cons hd rest ih =>
    obtain ⟨k', w⟩ := hd
    by_cases hj : k' = j <;> simp [alookup, hj, ih]

/-! ## Lemmas about `autoSave` -/

theorem autoSave_victims (dm : DataManager) (now : ℚ) (ok : Bool) :
    (autoSave dm now ok).victims = dm.victims := by
  unfold autoSave saveToFile
  rcases dm.lastBackupTime with _ | t
  · cases ok <;> simp
  · by_cases h : now - t ≥ BACKUP_INTERVAL_SECONDS <;> cases ok <;> simp [h]

theorem autoSave_saveTimes_of_gate (dm : DataManager) (now : ℚ)
    (h : gateOpenSpec dm now) :
    (autoSave dm now true).saveTimes = dm.saveTimes ++ [now] := by
  unfold autoSave saveToFile
  rcases h with h | ⟨t, ht, hge⟩
  · simp [h]
  · simp [ht, hge]

theorem autoSave_saveTimes_of_closed (dm : DataManager) (now : ℚ)
    (ok : Bool) (h : ¬ gateOpenSpec dm now) :
    (autoSave dm now ok).saveTimes = dm.saveTimes := by
  unfold autoSave saveToFile
  unfold gateOpenSpec at h
  push_neg at h
  rcases hbt : dm.lastBackupTime with _ | t
  · exact absurd hbt h.1
  · have := h.2 t hbt
    simp [not_le.mpr this]

theorem autoSave_disk_of_closed (dm : DataManager) (now : ℚ)
    (ok : Bool) (h : ¬ gateOpenSpec dm now) :
    (autoSave dm now ok).disk = dm.disk ∧
      (autoSave dm now ok).lastBackupTime = dm.lastBackupTime := by
  unfold autoSave saveToFile
  unfold gateOpenSpec at h
  push_neg at h
  rcases hbt : dm.lastBackupTime with _ | t
  · exact absurd hbt h.1
  · have := h.2 t hbt
    simp [not_le.mpr this, hbt]

theorem autoSave_disk_of_gate (dm : DataManager) (now : ℚ)
    (h : gateOpenSpec dm now) :
    (autoSave dm now true).disk = some dm.victims ∧
      (autoSave dm now true).lastBackupTime = some now := by
  unfold autoSave saveToFile
  rcases h with h | ⟨t, ht, hge⟩
  · simp [h]
  · simp [ht, hge]

/-! ## Lemmas about clusters -/

theorem mem_lookupCluster_addToCluster_self (key : String) (vid : Int)
    (cs : List (String × List Int)) :
    vid ∈ lookupCluster (addToCluster key vid cs) key := by
  induction cs with
  | nil => simp [addToCluster, lookupCluster]
  | cons c rest ih =>
    obtain ⟨k, vs⟩ := c
    simp only [addToCluster]
    by_cases hk : k = key
    · rw [if_pos hk]
      simp only [lookupCluster, if_pos hk]
      exact List.mem_append_right _ (by simp)
    · rw [if_neg hk]
      simp only [lookupCluster, if_neg hk]
      exact ih

theorem mem_lookupCluster_addToCluster_mono {w : Int} {cs : List (String × List Int)}
    {k : String} (key : String) (vid : Int) (h : w ∈ lookupCluster cs k) :
    w ∈ lookupCluster (addToCluster key vid cs) k := by
  induction cs with
  | nil => simp [lookupCluster] at h
  | cons c rest ih =>
    obtain ⟨k', vs⟩ := c
    simp only [addToCluster]
    by_cases hk' : k' = key
    · rw [if_pos hk']
      simp only [lookupCluster] at h ⊢
      by_cases hkk : k' = k
      · rw [if_pos hkk] at h ⊢
        exact List.mem_append_left _ h
      · rw [if_neg hkk] at h ⊢
        exact h
    · rw [if_neg hk']
      simp only [lookupCluster] at h ⊢
      by_cases hkk : k' = k
      · rw [if_pos hkk] at h ⊢
        exact h
      · rw [if_neg hkk] at h ⊢
        exact ih h

theorem mem_lookupCluster_foldl_mono {w : Int} {k : String}
    (l : List (Int × Victim)) (s : ℚ) (acc : List (String × List Int))
    (h : w ∈ lookupCluster acc k) :
    w ∈ lookupCluster
      (l.foldl (fun a kv => addToCluster (sectorId kv.2.lat kv.2.lon s) kv.1 a) acc) k := by
  induction l generalizing acc with
  | nil => simpa using h
  | cons kv rest ih =>
    exact ih _ (mem_lookupCluster_addToCluster_mono _ _ h)

theorem mem_foldl_clusters {l : List (Int × Victim)} {s : ℚ} {vid : Int}
    {data : Victim} (h : (vid, data) ∈ l) (acc : List (String × List Int)) :
    vid ∈ lookupCluster
      (l.foldl (fun a kv => addToCluster (sectorId kv.2.lat kv.2.lon s) kv.1 a) acc)
      (sectorId data.lat data.lon s) := by
  induction l generalizing acc with
  | nil => simp at h
  | cons kv rest ih =>
    simp only [List.foldl_cons]
    rcases List.mem_cons.mp h with h | h
    · rw [← h]
      exact mem_lookupCluster_foldl_mono _ _ _
        (mem_lookupCluster_addToCluster_self _ _ _)
    · exact ih h _

theorem mem_getGeographicClusters {dm : DataManager} {s : ℚ} {vid : Int}
    {data : Victim} (h : (vid, data) ∈ dm.victims) :
    vid ∈ lookupCluster (getGeographicClusters dm s) (sectorId data.lat data.lon s) :=
  mem_foldl_clusters h []

theorem clusterTotal_cons (c : String × List Int) (cs : List (String × List Int)) :
    clusterTotal (c :: cs) = c.2.length + clusterTotal cs := by
  simp [clusterTotal]

theorem clusterTotal_addToCluster (key : String) (vid : Int)
    (cs : List (String × List Int)) :
    clusterTotal (addToCluster key vid cs) = clusterTotal cs + 1 := by
  induction cs with
  | nil => simp [addToCluster, clusterTotal]
  | cons c rest ih =>
    obtain ⟨k, vs⟩ := c
    simp only [addToCluster]
    by_cases hk : k = key
    · rw [if_pos hk, clusterTotal_cons, clusterTotal_cons]
      simp
      omega
    · rw [if_neg hk, clusterTotal_cons, clusterTotal_cons, ih]
      omega

theorem clusterTotal_foldl (l : List (Int × Victim)) (s : ℚ)
    (acc : List (String × List Int)) :
    clusterTotal
      (l.foldl (fun a kv => addToCluster (sectorId kv.2.lat kv.2.lon s) kv.1 a) acc) =
      clusterTotal acc + l.length := by
  induction l generalizing acc with
  | nil => simp
  | cons kv rest ih =>
    simp only [List.foldl_cons, List.length_cons]
    rw [ih, clusterTotal_addToCluster]
    omega

/-! ## Status bookkeeping -/

theorem length_eq_status_counts (l : List (Int × Victim))
    (h : ∀ kv ∈ l, kv.2.status ∈ ALL_STATUSES) :
    (l.filter (fun kv => kv.2.status == STATUS_STRANDED)).length +
      (l.filter (fun kv => kv.2.status == STATUS_EN_ROUTE)).length +
      (l.filter (fun kv => kv.2.status == STATUS_RESCUED)).length = l.length := by
  induction l with
  | nil => simp
  | cons kv rest ih =>
    have hrest : ∀ x ∈ rest, x.2.status ∈ ALL_STATUSES := fun x hx =>
      h x (List.mem_cons_of_mem _ hx)
    have hkv := h kv (List.mem_cons_self _ _)
    have ih' := ih hrest
    simp only [ALL_STATUSES, STATUS_STRANDED, STATUS_EN_ROUTE, STATUS_RESCUED,
      List.mem_cons, List.not_mem_nil, or_false] at hkv
    simp only [STATUS_STRANDED, STATUS_EN_ROUTE, STATUS_RESCUED] at ih' ⊢
    rcases hkv with hs | hs | hs <;>
      simp [List.filter_cons, hs] <;> omega

/-! ## Small helper facts -/

theorem cap20_eq_drop (l : List Int) :
    (if l.length > 20 then l.drop (l.length - 20) else l) = l.drop (l.length - 20) := by
  by_cases h : l.length > 20
  · rw [if_pos h]
  · rw [if_neg h]
    have hz : l.length - 20 = 0 := by omega
    rw [hz, List.drop_zero]

/-! ## Claim theorems -/

/-- C3: Priority classification.  `calculate_priority` returns HIGH iff
`rssi < weakThreshold ∨ minutes > criticalThreshold`; MEDIUM iff
`weakThreshold ≤ rssi < strongThreshold ∧ minutes ≤ criticalThreshold`; LOW
otherwise; the elapsed minutes default to 0 when `LAST_UPDATE` is absent or
unparsable; the boundary case `rssi = strongThreshold` with a recent update
is LOW; and with the default thresholds (strong = -70, weak = -85,
critical = 15): rssi = -90 is HIGH for every elapsed time, rssi = -80 at 5
minutes is MEDIUM, rssi = -70 at 1 minute is LOW, and rssi = -75 at 20
minutes is HIGH. -/
theorem calculate_priority_classification :
    (∀ (rssi : Int) (m : ℚ) (strong weak : Int) (crit : ℚ),
      (calculate_priority rssi m strong weak crit).1 = "HIGH" ↔
        (rssi < weak ∨ m > crit)) ∧
    (∀ (rssi : Int) (m : ℚ) (strong weak : Int) (crit : ℚ),
      (calculate_priority rssi m strong weak crit).1 = "MEDIUM" ↔
        (weak ≤ rssi ∧ rssi < strong ∧ m ≤ crit)) ∧
    (∀ (rssi : Int) (m : ℚ) (strong weak : Int) (crit : ℚ),
      (calculate_priority rssi m strong weak crit).1 = "LOW" ↔
        (¬ (rssi < weak ∨ m > crit) ∧ ¬ (weak ≤ rssi ∧ rssi < strong ∧ m ≤ crit))) ∧
    (∀ (rssi strong weak : Int) (crit : ℚ),
      calculate_priority_of rssi none strong weak crit =
        calculate_priority rssi 0 strong weak crit) ∧
    (∀ m : ℚ,
      (calculate_priority (-90) m RSSI_STRONG_THRESHOLD RSSI_WEAK_THRESHOLD
        TIME_CRITICAL_THRESHOLD).1 = "HIGH") ∧
    (calculate_priority (-80) 5 RSSI_STRONG_THRESHOLD RSSI_WEAK_THRESHOLD
      TIME_CRITICAL_THRESHOLD).1 = "MEDIUM" ∧
    (calculate_priority (-70) 1 RSSI_STRONG_THRESHOLD RSSI_WEAK_THRESHOLD
      TIME_CRITICAL_THRESHOLD).1 = "LOW" ∧
    (calculate_priority (-75) 20 RSSI_STRONG_THRESHOLD RSSI_WEAK_THRESHOLD
      TIME_CRITICAL_THRESHOLD).1 = "HIGH" := by
  refine ⟨?_, ?_, ?_, ?_, ?_, ?_, ?_, ?_⟩
  · intro rssi m strong weak crit
    unfold calculate_priority
    split_ifs with h1 h2
    · simpa using h1
    · simpa using h1
    · simpa using h1
  · intro rssi m strong weak crit
    unfold calculate_priority
    split_ifs with h1 h2
    · refine iff_of_false (by decide) ?_
      rintro ⟨ha, _, hc⟩
      rcases h1 with h | h
      · exact absurd h (not_lt.mpr ha)
      · exact absurd h (not_lt.mpr hc)
    · simpa using h2
    · simpa using h2
  · intro rssi m strong weak crit
    unfold calculate_priority
    split_ifs with h1 h2
    · refine iff_of_false (by decide) ?_
      rintro ⟨hn1, _⟩
      exact hn1 h1
    · refine iff_of_false (by decide) ?_
      rintro ⟨_, hn2⟩
      exact hn2 h2
    · exact iff_of_true rfl ⟨h1, h2⟩
  · intro rssi strong weak crit
    rfl
  · intro m
    unfold calculate_priority
    rw [if_pos (Or.inl (by decide : (-90 : Int) < RSSI_WEAK_THRESHOLD))]
  · decide
  · decide
  · decide

/-- C1: Add-or-update deduplicates by ID.  On a store with unique keys and a
validated packet: if the packet's ID exists, exactly one record for that ID
remains, `LAT/LON/TIME/RSSI/LAST_UPDATE` are overwritten, `UPDATE_COUNT` is
incremented by one, and the packet's RSSI is appended to `RSSI_HISTORY`
keeping only the most recent 20 entries (oldest dropped first); if the ID is
new, a record is created with `STATUS = STRANDED`, `UPDATE_COUNT = 1`, a
single-entry history and empty notes.  Ingesting the dedup test's two
packets for ID 5 leaves one record with `UPDATE_COUNT = 2`, `LAT = 1.1`,
`RSSI_HISTORY = [-60, -65]`. -/
theorem add_or_update_victim_dedup :
    (∀ (dm : DataManager) (p : Packet) (nowStr : String) (now : ℚ) (ok : Bool)
      (v : Victim),
      (dm.victims.map Prod.fst).Nodup →
      validatePacket p = true →
      alookup p.id dm.victims = some v →
      countId (addOrUpdateVictim dm p nowStr now ok).1.victims p.id = 1 ∧
      alookup p.id (addOrUpdateVictim dm p nowStr now ok).1.victims = some
        { v with lat := p.lat, lon := p.lon, time := p.time, rssi := p.rssi,
                 lastUpdate := nowStr, updateCount := v.updateCount + 1,
                 rssiHistory :=
                   (v.rssiHistory ++ [p.rssi]).drop
                     ((v.rssiHistory ++ [p.rssi]).length - 20) }) ∧
    (∀ (dm : DataManager) (p : Packet) (nowStr : String) (now : ℚ) (ok : Bool),
      validatePacket p = true →
      alookup p.id dm.victims = none →
      countId (addOrUpdateVictim dm p nowStr now ok).1.victims p.id = 1 ∧
      alookup p.id (addOrUpdateVictim dm p nowStr now ok).1.victims = some
        { id := p.id, lat := p.lat, lon := p.lon, time := p.time, rssi := p.rssi,
          status := STATUS_STRANDED, firstDetected := nowStr, lastUpdate := nowStr,
          enrouteTime := none, rescuedTime := none, rescuedBy := none,
          updateCount := 1, rssiHistory := [p.rssi], notes := "" }) ∧
    (letI dm1 := (addOrUpdateVictim initDM ⟨5, 1, 1, "10:00", -60⟩ "T1" 0 true).1
     letI dm2 := (addOrUpdateVictim dm1 ⟨5, 11/10, 11/10, "10:05", -65⟩ "T2" 10 true).1
     dm2.victims.length = 1 ∧
     alookup 5 dm2.victims = some
       { id := 5, lat := 11/10, lon := 11/10, time := "10:05", rssi := -65,
         status := STATUS_STRANDED, firstDetected := "T1", lastUpdate := "T2",
         enrouteTime := none, rescuedTime := none, rescuedBy := none,
         updateCount := 2, rssiHistory := [-60, -65], notes := "" }) := by
  refine ⟨?_, ?_, ?_⟩
  · intro dm p nowStr now ok v hnodup _hval h
    have hvics : (addOrUpdateVictim dm p nowStr now ok).1.victims =
        aupdate p.id (fun w =>
          let hist := w.rssiHistory ++ [p.rssi]
          let hist := if hist.length > 20 then hist.drop (hist.length - 20) else hist
          { w with lat := p.lat, lon := p.lon, time := p.time, rssi := p.rssi,
                   lastUpdate := nowStr, updateCount := w.updateCount + 1,
                   rssiHistory := hist }) dm.victims := by
      simp only [addOrUpdateVictim, h, autoSave_victims]
    constructor
    · rw [countId, hvics, aupdate_keys]
      have hmem : p.id ∈ dm.victims.map Prod.fst :=
        List.mem_map_of_mem _ (alookup_mem h)
      have h1 := List.count_pos_iff.mpr hmem
      have h2 := List.nodup_iff_count_le_one.mp hnodup p.id
      omega
    · rw [hvics, alookup_aupdate_self _ h]
      simp only [cap20_eq_drop]
  · intro dm p nowStr now ok _hval h
    have hvics : (addOrUpdateVictim dm p nowStr now ok).1.victims =
        dm.victims ++ [(p.id,
          { id := p.id, lat := p.lat, lon := p.lon, time := p.time, rssi := p.rssi,
            status := STATUS_STRANDED, firstDetected := nowStr, lastUpdate := nowStr,
            enrouteTime := none, rescuedTime := none, rescuedBy := none,
            updateCount := 1, rssiHistory := [p.rssi], notes := "" })] := by
      simp only [addOrUpdateVictim, h, autoSave_victims]
    have hnotmem : p.id ∉ dm.victims.map Prod.fst := by
      intro hmem
      obtain ⟨kv, hkv, hfst⟩ := List.mem_map.mp hmem
      exact (alookup_eq_none_iff.mp h) kv hkv hfst
    constructor
    · rw [countId, hvics, List.map_append, List.count_append]
      rw [List.count_eq_zero.mpr hnotmem]
      simp
    · rw [hvics, alookup_append_single, h]
      simp
  · refine ⟨?_, ?_⟩ <;>
      norm_num [addOrUpdateVictim, alookup, aupdate, autoSave, saveToFile, initDM,
        STATUS_STRANDED, BACKUP_INTERVAL_SECONDS]

/-- Witness for C1: the new-record branch applied to the empty store and the
dedup test's first packet. -/
theorem add_or_update_victim_dedup_witness :
    validatePacket ⟨5, 1, 1, "10:00", -60⟩ = true ∧
    alookup 5 initDM.victims = none ∧
    countId (addOrUpdateVictim initDM ⟨5, 1, 1, "10:00", -60⟩ "T0" 0 true).1.victims 5 = 1 :=
  ⟨by decide, rfl,
    (add_or_update_victim_dedup.2.1 initDM ⟨5, 1, 1, "10:00", -60⟩ "T0" 0 true
      (by decide) rfl).1⟩

/-- Every store state reachable by the store's own mutators keeps every
record's `STATUS` inside the `ALL_STATUSES` enumeration. -/
theorem statuses_in_enum_of_reachableStore :
    ∀ dm, ReachableStore dm → ∀ kv ∈ dm.victims, kv.2.status ∈ ALL_STATUSES := by
  intro dm h
  induction h with
  | init => simp [initDM]
  | add dm p nowStr now ok _ ih =>
    intro kv hkv
    rcases hl : alookup p.id dm.victims with _ | v
    · have hvics : (addOrUpdateVictim dm p nowStr now ok).1.victims =
          dm.victims ++ [(p.id,
            { id := p.id, lat := p.lat, lon := p.lon, time := p.time, rssi := p.rssi,
              status := STATUS_STRANDED, firstDetected := nowStr, lastUpdate := nowStr,
              enrouteTime := none, rescuedTime := none, rescuedBy := none,
              updateCount := 1, rssiHistory := [p.rssi], notes := "" })] := by
        simp only [addOrUpdateVictim, hl, autoSave_victims]
      rw [hvics] at hkv
      rcases List.mem_append.mp hkv with h' | h'
      · exact ih kv h'
      · simp only [List.mem_singleton] at h'
        subst h'
        simp [ALL_STATUSES]
    · have hvics : (addOrUpdateVictim dm p nowStr now ok).1.victims =
          aupdate p.id (fun w =>
            let hist := w.rssiHistory ++ [p.rssi]
            let hist := if hist.length > 20 then hist.drop (hist.length - 20) else hist
            { w with lat := p.lat, lon := p.lon, time := p.time, rssi := p.rssi,
                     lastUpdate := nowStr, updateCount := w.updateCount + 1,
                     rssiHistory := hist }) dm.victims := by
        simp only [addOrUpdateVictim, hl, autoSave_victims]
      rw [hvics] at hkv
      rcases mem_aupdate hkv with h' | ⟨w, hw, hkv'⟩
      · exact ih kv h'
      · subst hkv'
        simpa using ih (p.id, w) (alookup_mem hw)
  | enroute dm vid nowStr now ok _ ih =>
    intro kv hkv
    rcases hl : alookup vid dm.victims with _ | v
    · have : (markEnroute dm vid nowStr now ok).1.victims = dm.victims := by
        simp only [markEnroute, hl]
      rw [this] at hkv
      exact ih kv hkv
    · have hvics : (markEnroute dm vid nowStr now ok).1.victims =
          aupdate vid
            (fun w => { w with status := STATUS_EN_ROUTE, enrouteTime := some nowStr })
            dm.victims := by
        simp only [markEnroute, hl, autoSave_victims]
      rw [hvics] at hkv
      rcases mem_aupdate hkv with h' | ⟨w, _, hkv'⟩
      · exact ih kv h'
      · subst hkv'
        simp [ALL_STATUSES]
  | rescued dm vid operator notes nowStr now ok _ ih =>
    intro kv hkv
    rcases hl : alookup vid dm.victims with _ | v
    · have : (markRescued dm vid operator notes nowStr now ok).1.victims = dm.victims := by
        simp only [markRescued, hl]
      rw [this] at hkv
      exact ih kv hkv
    · have hvics : (markRescued dm vid operator notes nowStr now ok).1.victims =
          aupdate vid
            (fun w => { w with status := STATUS_RESCUED, rescuedTime := some nowStr,
                               rescuedBy := some operator, notes := notes })
            dm.victims := by
        simp only [markRescued, hl, autoSave_victims]
      rw [hvics] at hkv
      rcases mem_aupdate hkv with h' | ⟨w, _, hkv'⟩
      · exact ih kv h'
      · subst hkv'
        simp [ALL_STATUSES]
  | del dm vid now ok _ ih =>
    intro kv hkv
    rcases hl : alookup vid dm.victims with _ | v
    · have : (deleteVictim dm vid now ok).1.victims = dm.victims := by
        simp only [deleteVictim, hl]
      rw [this] at hkv
      exact ih kv hkv
    · have hvics : (deleteVictim dm vid now ok).1.victims = aremove vid dm.victims := by
        simp only [deleteVictim, hl, autoSave_victims]
      rw [hvics] at hkv
      exact ih kv (mem_aremove hkv)
  | reset dm now ok _ ih =>
    intro kv hkv
    have hvics : (resetAllData dm now ok).1.victims = [] := by
      simp only [resetAllData, autoSave_victims]
    rw [hvics] at hkv
    simp at hkv

/-- C9: Status partition invariant.  In every state reachable by the store's
own operations every record's `STATUS` is one of `STRANDED`, `EN_ROUTE`,
`RESCUED`; consequently `get_statistics` satisfies
`stranded + enroute + rescued = total`, and each percentage equals
`count/total*100` (0 when `total = 0`). -/
theorem statistics_partition :
    ∀ dm, ReachableStore dm →
      (∀ kv ∈ dm.victims, kv.2.status ∈ ALL_STATUSES) ∧
      (getStatistics dm).stranded + (getStatistics dm).enroute +
        (getStatistics dm).rescued = (getStatistics dm).total ∧
      ((getStatistics dm).total = 0 →
        (getStatistics dm).strandedPct = 0 ∧ (getStatistics dm).enroutePct = 0 ∧
        (getStatistics dm).rescuedPct = 0) ∧
      (0 < (getStatistics dm).total →
        (getStatistics dm).strandedPct =
          ((getStatistics dm).stranded : ℚ) / ((getStatistics dm).total : ℚ) * 100 ∧
        (getStatistics dm).enroutePct =
          ((getStatistics dm).enroute : ℚ) / ((getStatistics dm).total : ℚ) * 100 ∧
        (getStatistics dm).rescuedPct =
          ((getStatistics dm).rescued : ℚ) / ((getStatistics dm).total : ℚ) * 100) := by
  intro dm h
  have hinv := statuses_in_enum_of_reachableStore dm h
  refine ⟨hinv, ?_, ?_, ?_⟩
  · simpa [getStatistics] using length_eq_status_counts dm.victims hinv
  · intro h0
    simp only [getStatistics] at h0 ⊢
    simp [h0]
  · intro h0
    simp only [getStatistics] at h0 ⊢
    simp [h0]

/-- Witness for C9: a concrete reachable state (one packet ingested, then
rescued) on which the partition equation is instantiated. -/
theorem statistics_partition_witness :
    ReachableStore (markRescued
      (addOrUpdateVictim initDM ⟨1, 1, 1, "10:00", -60⟩ "T0" 0 true).1
      1 "Alex" "" "T1" 1 true).1 ∧
    (getStatistics (markRescued
      (addOrUpdateVictim initDM ⟨1, 1, 1, "10:00", -60⟩ "T0" 0 true).1
      1 "Alex" "" "T1" 1 true).1).stranded +
      (getStatistics (markRescued
        (addOrUpdateVictim initDM ⟨1, 1, 1, "10:00", -60⟩ "T0" 0 true).1
        1 "Alex" "" "T1" 1 true).1).enroute +
      (getStatistics (markRescued
        (addOrUpdateVictim initDM ⟨1, 1, 1, "10:00", -60⟩ "T0" 0 true).1
        1 "Alex" "" "T1" 1 true).1).rescued =
      (getStatistics (markRescued
        (addOrUpdateVictim initDM ⟨1, 1, 1, "10:00", -60⟩ "T0" 0 true).1
        1 "Alex" "" "T1" 1 true).1).total := by
  have hr : ReachableStore (markRescued
      (addOrUpdateVictim initDM ⟨1, 1, 1, "10:00", -60⟩ "T0" 0 true).1
      1 "Alex" "" "T1" 1 true).1 :=
    ReachableStore.rescued _ 1 "Alex" "" "T1" 1 true
      (ReachableStore.add _ ⟨1, 1, 1, "10:00", -60⟩ "T0" 0 true ReachableStore.init)
  exact ⟨hr, (statistics_partition _ hr).2.1⟩

/-- Rescue-field/status equivalence holds in every state reachable when
`mark_enroute` is only applied to records that are not currently
`RESCUED`. -/
theorem rescue_iff_of_reachableDGuarded :
    ∀ dm, ReachableDGuarded dm →
      ∀ kv ∈ dm.victims,
        ((kv.2.rescuedTime ≠ none ∨ kv.2.rescuedBy ≠ none) ↔
          kv.2.status = STATUS_RESCUED) := by
  intro dm h
  induction h with
  | init => simp [initDM]
  | add dm p nowStr now ok _ ih =>
    intro kv hkv
    rcases hl : alookup p.id dm.victims with _ | v
    · have hvics : (addOrUpdateVictim dm p nowStr now ok).1.victims =
          dm.victims ++ [(p.id,
            { id := p.id, lat := p.lat, lon := p.lon, time := p.time, rssi := p.rssi,
              status := STATUS_STRANDED, firstDetected := nowStr, lastUpdate := nowStr,
              enrouteTime := none, rescuedTime := none, rescuedBy := none,
              updateCount := 1, rssiHistory := [p.rssi], notes := "" })] := by
        simp only [addOrUpdateVictim, hl, autoSave_victims]
      rw [hvics] at hkv
      rcases List.mem_append.mp hkv with h' | h'
      · exact ih kv h'
      · simp only [List.mem_singleton] at h'
        subst h'
        simp [STATUS_STRANDED, STATUS_RESCUED]
    · have hvics : (addOrUpdateVictim dm p nowStr now ok).1.victims =
          aupdate p.id (fun w =>
            let hist := w.rssiHistory ++ [p.rssi]
            let hist := if hist.length > 20 then hist.drop (hist.length - 20) else hist
            { w with lat := p.lat, lon := p.lon, time := p.time, rssi := p.rssi,
                     lastUpdate := nowStr, updateCount := w.updateCount + 1,
                     rssiHistory := hist }) dm.victims := by
        simp only [addOrUpdateVictim, hl, autoSave_victims]
      rw [hvics] at hkv
      rcases mem_aupdate hkv with h' | ⟨w, hw, hkv'⟩
      · exact ih kv h'
      · subst hkv'
        simpa using ih (p.id, w) (alookup_mem hw)
  | enroute dm vid nowStr now ok hguard _ ih =>
    intro kv hkv
    rcases hl : alookup vid dm.victims with _ | v
    · have : (markEnroute dm vid nowStr now ok).1.victims = dm.victims := by
        simp only [markEnroute, hl]
      rw [this] at hkv
      exact ih kv hkv
    · have hvics : (markEnroute dm vid nowStr now ok).1.victims =
          aupdate vid
            (fun w => { w with status := STATUS_EN_ROUTE, enrouteTime := some nowStr })
            dm.victims := by
        simp only [markEnroute, hl, autoSave_victims]
      rw [hvics] at hkv
      rcases mem_aupdate hkv with h' | ⟨w, hw, hkv'⟩
      · exact ih kv h'
      · have hwv : w = v := by rw [hl] at hw; exact (Option.some.inj hw).symm
        subst hwv hkv'
        have hstat := hguard w hl
        have hiff := ih (vid, w) (alookup_mem hl)
        have hfields : w.rescuedTime = none ∧ w.rescuedBy = none := by
          by_contra hcon
          push_neg at hcon
          rcases hrt : w.rescuedTime with _ | t
          · exact hstat (hiff.mp (Or.inr (hcon hrt)))
          · exact hstat (hiff.mp (Or.inl (by simp [hrt])))
        simp [hfields.1, hfields.2, STATUS_EN_ROUTE, STATUS_RESCUED]
  | rescued dm vid operator notes nowStr now ok _ ih =>
    intro kv hkv
    rcases hl : alookup vid dm.victims with _ | v
    · have : (markRescued dm vid operator notes nowStr now ok).1.victims = dm.victims := by
        simp only [markRescued, hl]
      rw [this] at hkv
      exact ih kv hkv
    · have hvics : (markRescued dm vid operator notes nowStr now ok).1.victims =
          aupdate vid
            (fun w => { w with status := STATUS_RESCUED, rescuedTime := some nowStr,
                               rescuedBy := some operator, notes := notes })
            dm.victims := by
        simp only [markRescued, hl, autoSave_victims]
      rw [hvics] at hkv
      rcases mem_aupdate hkv with h' | ⟨w, _, hkv'⟩
      · exact ih kv h'
      · subst hkv'
        simp
  | toggleUndo dm vid now ok v hv hstat _ ih =>
    intro kv hkv
    have hvics : (dashboardUndoRescue dm vid now ok).victims =
        aupdate vid
          (fun w => { w with status := STATUS_STRANDED, rescuedTime := none,
                             rescuedBy := none })
          dm.victims := by
      simp only [dashboardUndoRescue, autoSave_victims]
    rw [hvics] at hkv
    rcases mem_aupdate hkv with h' | ⟨w, _, hkv'⟩
    · exact ih kv h'
    · subst hkv'
      simp [STATUS_STRANDED, STATUS_RESCUED]

/-- C2 (amended): Under packet ingestion, `mark_rescued`, the dashboard
toggle, and `mark_enroute` restricted to records that are not currently
`RESCUED`, every reachable state satisfies: a record carries a non-empty
`RESCUED_TIME` or `RESCUED_BY` iff its `STATUS` is `RESCUED`.  Moreover:
ingestion never changes an existing record's status or rescue fields;
`mark_enroute` sets `EN_ROUTE` unconditionally while retaining the rescue
fields (so applied to a `RESCUED` record it moves the status backwards —
the unguarded claim fails); `mark_rescued` sets `RESCUED` with timestamp and
attribution; and the dashboard undo is the sole backwards transition,
`RESCUED → STRANDED`, clearing both rescue fields. -/
theorem status_rescue_field_invariant :
    (∀ dm, ReachableDGuarded dm →
      ∀ kv ∈ dm.victims,
        ((kv.2.rescuedTime ≠ none ∨ kv.2.rescuedBy ≠ none) ↔
          kv.2.status = STATUS_RESCUED)) ∧
    (∀ (dm : DataManager) (vid : Int) (nowStr : String) (now : ℚ) (ok : Bool)
      (v : Victim), alookup vid dm.victims = some v →
      alookup vid (markEnroute dm vid nowStr now ok).1.victims =
        some { v with status := STATUS_EN_ROUTE, enrouteTime := some nowStr }) ∧
    (∀ (dm : DataManager) (vid : Int) (operator notes nowStr : String) (now : ℚ)
      (ok : Bool) (v : Victim), alookup vid dm.victims = some v →
      alookup vid (markRescued dm vid operator notes nowStr now ok).1.victims =
        some { v with status := STATUS_RESCUED, rescuedTime := some nowStr,
                      rescuedBy := some operator, notes := notes }) ∧
    (∀ (dm : DataManager) (vid : Int) (now : ℚ) (ok : Bool) (v : Victim),
      alookup vid dm.victims = some v →
      alookup vid (dashboardUndoRescue dm vid now ok).victims =
        some { v with status := STATUS_STRANDED, rescuedTime := none,
                      rescuedBy := none }) ∧
    (∀ (dm : DataManager) (p : Packet) (nowStr : String) (now : ℚ) (ok : Bool)
      (vid : Int) (v : Victim), alookup vid dm.victims = some v →
      ∃ v', alookup vid (addOrUpdateVictim dm p nowStr now ok).1.victims = some v' ∧
        v'.status = v.status ∧ v'.rescuedTime = v.rescuedTime ∧
        v'.rescuedBy = v.rescuedBy) := by
  refine ⟨rescue_iff_of_reachableDGuarded, ?_, ?_, ?_, ?_⟩
  · intro dm vid nowStr now ok v h
    simp only [markEnroute, h, autoSave_victims]
    exact alookup_aupdate_self _ h
  · intro dm vid operator notes nowStr now ok v h
    simp only [markRescued, h, autoSave_victims]
    exact alookup_aupdate_self _ h
  · intro dm vid now ok v h
    simp only [dashboardUndoRescue, autoSave_victims]
    exact alookup_aupdate_self _ h
  · intro dm p nowStr now ok vid v h
    rcases hl : alookup p.id dm.victims with _ | w
    · have hvics : (addOrUpdateVictim dm p nowStr now ok).1.victims =
          dm.victims ++ [(p.id,
            { id := p.id, lat := p.lat, lon := p.lon, time := p.time, rssi := p.rssi,
              status := STATUS_STRANDED, firstDetected := nowStr, lastUpdate := nowStr,
              enrouteTime := none, rescuedTime := none, rescuedBy := none,
              updateCount := 1, rssiHistory := [p.rssi], notes := "" })] := by
        simp only [addOrUpdateVictim, hl, autoSave_victims]
      refine ⟨v, ?_, rfl, rfl, rfl⟩
      rw [hvics, alookup_append_single, h]
    · have hvics : (addOrUpdateVictim dm p nowStr now ok).1.victims =
          aupdate p.id (fun w =>
            let hist := w.rssiHistory ++ [p.rssi]
            let hist := if hist.length > 20 then hist.drop (hist.length - 20) else hist
            { w with lat := p.lat, lon := p.lon, time := p.time, rssi := p.rssi,
                     lastUpdate := nowStr, updateCount := w.updateCount + 1,
                     rssiHistory := hist }) dm.victims := by
        simp only [addOrUpdateVictim, hl, autoSave_victims]
      by_cases hvid : vid = p.id
      · subst hvid
        have hwv : w = v := by rw [hl] at h; exact Option.some.inj h
        subst hwv
        rw [hvics, alookup_aupdate_self _ hl]
        exact ⟨_, rfl, rfl, rfl, rfl⟩
      · refine ⟨v, ?_, rfl, rfl, rfl⟩
        rw [hvics, alookup_aupdate_of_ne hvid, h]

/-- Witness for C2 (amended): the invariant instantiated on a concrete
guarded-reachable state holding one rescued record. -/
theorem status_rescue_field_invariant_witness :
    ReachableDGuarded (markRescued
      (addOrUpdateVictim initDM ⟨1, 1, 1, "10:00", -60⟩ "T0" 0 true).1
      1 "Alex" "" "T1" 1 true).1 ∧
    ((((some "T1" : Option String) ≠ none) ∨ ((some "Alex" : Option String) ≠ none)) ↔
      STATUS_RESCUED = STATUS_RESCUED) := by
  have hr : ReachableDGuarded (markRescued
      (addOrUpdateVictim initDM ⟨1, 1, 1, "10:00", -60⟩ "T0" 0 true).1
      1 "Alex" "" "T1" 1 true).1 :=
    ReachableDGuarded.rescued _ 1 "Alex" "" "T1" 1 true
      (ReachableDGuarded.add _ ⟨1, 1, 1, "10:00", -60⟩ "T0" 0 true
        ReachableDGuarded.init)
  have hmem : ((1 : Int),
      ({ id := 1, lat := 1, lon := 1, time := "10:00", rssi := -60,
         status := STATUS_RESCUED, firstDetected := "T0", lastUpdate := "T0",
         enrouteTime := none, rescuedTime := some "T1", rescuedBy := some "Alex",
         updateCount := 1, rssiHistory := [-60], notes := "" } : Victim)) ∈
      (markRescued (addOrUpdateVictim initDM ⟨1, 1, 1, "10:00", -60⟩ "T0" 0 true).1
        1 "Alex" "" "T1" 1 true).1.victims := by
    norm_num [addOrUpdateVictim, markRescued, alookup, aupdate, autoSave, saveToFile,
      initDM, BACKUP_INTERVAL_SECONDS]
  exact ⟨hr, status_rescue_field_invariant.1 _ hr _ hmem⟩

/-- Counterexample for C2 as stated: the state reached by ingesting a packet
for ID 1, marking it rescued, then calling `mark_enroute` on it is reachable
by the claimed operations, yet its record moved `RESCUED → EN_ROUTE`
(backwards in the claimed ordering) and still carries a non-empty
`RESCUED_TIME`/`RESCUED_BY` while `STATUS ≠ RESCUED`. -/
theorem status_rescue_field_invariant_cex :
    ReachableD (markEnroute
      (markRescued (addOrUpdateVictim initDM ⟨1, 1, 1, "10:00", -60⟩ "T0" 0 true).1
        1 "Alex" "" "T1" 1 true).1
      1 "T2" 2 true).1 ∧
    (alookup 1 (markRescued
        (addOrUpdateVictim initDM ⟨1, 1, 1, "10:00", -60⟩ "T0" 0 true).1
        1 "Alex" "" "T1" 1 true).1.victims).map Victim.status =
      some STATUS_RESCUED ∧
    (alookup 1 (markEnroute
        (markRescued (addOrUpdateVictim initDM ⟨1, 1, 1, "10:00", -60⟩ "T0" 0 true).1
          1 "Alex" "" "T1" 1 true).1
        1 "T2" 2 true).1.victims).map Victim.status = some STATUS_EN_ROUTE ∧
    (alookup 1 (markEnroute
        (markRescued (addOrUpdateVictim initDM ⟨1, 1, 1, "10:00", -60⟩ "T0" 0 true).1
          1 "Alex" "" "T1" 1 true).1
        1 "T2" 2 true).1.victims).map Victim.rescuedTime = some (some "T1") ∧
    (alookup 1 (markEnroute
        (markRescued (addOrUpdateVictim initDM ⟨1, 1, 1, "10:00", -60⟩ "T0" 0 true).1
          1 "Alex" "" "T1" 1 true).1
        1 "T2" 2 true).1.victims).map Victim.rescuedBy = some (some "Alex") ∧
    STATUS_EN_ROUTE ≠ STATUS_RESCUED := by
  refine ⟨?_, ?_, ?_, ?_, ?_, by decide⟩
  · exact ReachableD.enroute _ 1 "T2" 2 true
      (ReachableD.rescued _ 1 "Alex" "" "T1" 1 true
        (ReachableD.add _ ⟨1, 1, 1, "10:00", -60⟩ "T0" 0 true ReachableD.init))
  all_goals
    norm_num [addOrUpdateVictim, markRescued, markEnroute, alookup, aupdate,
      autoSave, saveToFile, initDM, BACKUP_INTERVAL_SECONDS]

theorem ratTrunc_eq_floor_of_nonneg (q : ℚ) (h : 0 ≤ q) : ratTrunc q = ⌊q⌋ := by
  rw [ratTrunc, Rat.floor_def]
  exact Int.tdiv_eq_ediv (Rat.num_nonneg.mpr h) (Int.ofNat_nonneg _)

/-- C5 (amended): the sector key assigned by `get_geographic_clusters` is
Python `int()` truncation toward zero of `LAT/s` and `LON/s` rendered as
`"<latSector>,<lonSector>"`; every record's ID is grouped under that key.
The truncated key agrees with the spec's floor only when both coordinates
are non-negative (for a positive sector size); for negative non-integral
quotients it differs from the floor. -/
theorem sector_key_truncation :
    (∀ (dm : DataManager) (s : ℚ) (vid : Int) (data : Victim),
      (vid, data) ∈ dm.victims →
      vid ∈ lookupCluster (getGeographicClusters dm s)
        (sectorId data.lat data.lon s)) ∧
    (∀ lat lon s : ℚ, 0 < s → 0 ≤ lat → 0 ≤ lon →
      sectorId lat lon s = sectorIdFloorSpec lat lon s) := by
  constructor
  · intro dm s vid data h
    exact mem_getGeographicClusters h
  · intro lat lon s hs hlat hlon
    rw [sectorId, sectorIdFloorSpec,
      ratTrunc_eq_floor_of_nonneg _ (div_nonneg hlat hs.le),
      ratTrunc_eq_floor_of_nonneg _ (div_nonneg hlon hs.le)]

/-- Witness for C5 (amended): the floor agreement instantiated at
`(1, 1)` with the default sector size. -/
theorem sector_key_truncation_witness :
    (0 : ℚ) < 1/1000 ∧
    sectorId 1 1 (1/1000) = sectorIdFloorSpec 1 1 (1/1000) :=
  ⟨by norm_num,
    sector_key_truncation.2 1 1 (1/1000) (by norm_num) (by norm_num) (by norm_num)⟩

/-- Counterexample for C5 as stated: at `LAT = -0.0005` with sector size
`0.001` the code's key is `"0,1000"` (truncation toward zero) while the
spec's floor key is `"-1,1000"`; the cluster map groups the record under the
truncated key. -/
theorem sector_key_truncation_cex :
    sectorId (-1/2000) 1 (1/1000) = "0,1000" ∧
    sectorIdFloorSpec (-1/2000) 1 (1/1000) = "-1,1000" ∧
    sectorId (-1/2000) 1 (1/1000) ≠ sectorIdFloorSpec (-1/2000) 1 (1/1000) ∧
    getGeographicClusters
      { victims := [(7,
          { id := 7, lat := -1/2000, lon := 1, time := "10:00", rssi := -60,
            status := STATUS_STRANDED, firstDetected := "T0", lastUpdate := "T0",
            enrouteTime := none, rescuedTime := none, rescuedBy := none,
            updateCount := 1, rssiHistory := [-60], notes := "" })],
        lastBackupTime := none, disk := none, saveTimes := [] } (1/1000) =
      [("0,1000", [7])] := by
  refine ⟨?_, ?_, ?_, ?_⟩
  · norm_num [sectorId, ratTrunc]
    decide
  · norm_num [sectorIdFloorSpec]
    decide
  · norm_num [sectorId, sectorIdFloorSpec, ratTrunc]
    decide
  · norm_num [getGeographicClusters, addToCluster, sectorId, ratTrunc]
    decide

/-- C6 (amended): neither `get_geographic_clusters` nor
`analyze_geographic_density` excludes any record on coordinates: the cluster
sizes always sum to the full record count, the per-sector totals of the
density analysis likewise, and a record at exactly `(0, 0)` is grouped
(under sector key `"0,0"`) rather than excluded.  The `(0,0)` "no fix"
exclusion exists only in the map renderer and the coverage analysis, not in
these two functions. -/
theorem density_includes_all_records :
    (∀ (dm : DataManager) (s : ℚ),
      clusterTotal (getGeographicClusters dm s) = dm.victims.length) ∧
    (∀ dm : DataManager,
      ((analyzeGeographicDensity dm).sectors.map (fun c => c.2.total)).sum =
        dm.victims.length) ∧
    (∀ (dm : DataManager) (s : ℚ) (vid : Int) (data : Victim),
      (vid, data) ∈ dm.victims → data.lat = 0 → data.lon = 0 →
      vid ∈ lookupCluster (getGeographicClusters dm s) "0,0") := by
  have h1 : ∀ (dm : DataManager) (s : ℚ),
      clusterTotal (getGeographicClusters dm s) = dm.victims.length := by
    intro dm s
    rw [getGeographicClusters, clusterTotal_foldl]
    simp [clusterTotal]
  refine ⟨h1, ?_, ?_⟩
  · intro dm
    rw [analyzeGeographicDensity]
    by_cases hemp : dm.victims.isEmpty
    · rw [if_pos hemp]
      simp [List.isEmpty_iff.mp hemp]
    · rw [if_neg hemp]
      have h2 := h1 dm SECTOR_SIZE_LAT
      rw [clusterTotal] at h2
      simpa using h2
  · intro dm s vid data hmem hlat hlon
    have hkey : sectorId data.lat data.lon s = "0,0" := by
      rw [sectorId, hlat, hlon, zero_div]
      norm_num [ratTrunc]
      decide
    have h3 := mem_getGeographicClusters (s := s) hmem
    rwa [hkey] at h3

/-- Witness for C6 (amended): the `(0,0)` record produced by ingesting a
zero-coordinate packet is grouped under sector `"0,0"`. -/
theorem density_includes_all_records_witness :
    ((1 : Int),
      ({ id := 1, lat := 0, lon := 0, time := "10:00", rssi := -60,
         status := STATUS_STRANDED, firstDetected := "T0", lastUpdate := "T0",
         enrouteTime := none, rescuedTime := none, rescuedBy := none,
         updateCount := 1, rssiHistory := [-60], notes := "" } : Victim)) ∈
      (addOrUpdateVictim initDM ⟨1, 0, 0, "10:00", -60⟩ "T0" 0 true).1.victims ∧
    1 ∈ lookupCluster
      (getGeographicClusters
        (addOrUpdateVictim initDM ⟨1, 0, 0, "10:00", -60⟩ "T0" 0 true).1
        SECTOR_SIZE_LAT) "0,0" := by
  have hmem : ((1 : Int),
      ({ id := 1, lat := 0, lon := 0, time := "10:00", rssi := -60,
         status := STATUS_STRANDED, firstDetected := "T0", lastUpdate := "T0",
         enrouteTime := none, rescuedTime := none, rescuedBy := none,
         updateCount := 1, rssiHistory := [-60], notes := "" } : Victim)) ∈
      (addOrUpdateVictim initDM ⟨1, 0, 0, "10:00", -60⟩ "T0" 0 true).1.victims := by
    norm_num [addOrUpdateVictim, alookup, autoSave, saveToFile, initDM]
  exact ⟨hmem,
    density_includes_all_records.2.2 _ SECTOR_SIZE_LAT 1 _ hmem rfl rfl⟩

/-- Counterexample for C6 as stated: a store holding one record at exactly
`(0, 0)` — obtained by ingesting a zero-coordinate packet — yields a
non-empty cluster map `[("0,0", [1])]` and a density analysis counting one
sector with one victim, so the `(0,0)` record is not excluded. -/
theorem density_includes_all_records_cex :
    getGeographicClusters
      (addOrUpdateVictim initDM ⟨1, 0, 0, "10:00", -60⟩ "T0" 0 true).1
      SECTOR_SIZE_LAT = [("0,0", [1])] ∧
    (analyzeGeographicDensity
      (addOrUpdateVictim initDM ⟨1, 0, 0, "10:00", -60⟩ "T0" 0 true).1).totalSectors = 1 ∧
    (analyzeGeographicDensity
      (addOrUpdateVictim initDM ⟨1, 0, 0, "10:00", -60⟩ "T0" 0 true).1).highestDensityCount = 1 := by
  refine ⟨?_, ?_, ?_⟩ <;>
    (norm_num [analyzeGeographicDensity, getGeographicClusters, addToCluster,
      sectorId, ratTrunc, addOrUpdateVictim, alookup, autoSave, saveToFile,
      initDM, SECTOR_SIZE_LAT]
     try decide)

/-- C7: Auto-save gating.  On a mutating call the snapshot save is performed
iff no successful save has occurred before, or at least 30 seconds have
elapsed since the last successful save; hence on a fresh store two mutating
calls less than 30 seconds apart produce exactly one on-disk write (the
first), and a third call after the 30-second window produces a second write
whose snapshot reflects all accumulated changes. -/
theorem auto_save_gating :
    (∀ (dm : DataManager) (p : Packet) (nowStr : String) (now : ℚ),
      gateOpenSpec dm now →
      (addOrUpdateVictim dm p nowStr now true).1.saveTimes = dm.saveTimes ++ [now]) ∧
    (∀ (dm : DataManager) (p : Packet) (nowStr : String) (now : ℚ) (ok : Bool),
      ¬ gateOpenSpec dm now →
      (addOrUpdateVictim dm p nowStr now ok).1.saveTimes = dm.saveTimes) ∧
    (∀ (dm : DataManager) (vid : Int) (operator notes nowStr : String) (now : ℚ)
      (v : Victim), alookup vid dm.victims = some v →
      gateOpenSpec dm now →
      (markRescued dm vid operator notes nowStr now true).1.saveTimes =
        dm.saveTimes ++ [now]) ∧
    (∀ (dm : DataManager) (vid : Int) (operator notes nowStr : String) (now : ℚ)
      (ok : Bool) (v : Victim), alookup vid dm.victims = some v →
      ¬ gateOpenSpec dm now →
      (markRescued dm vid operator notes nowStr now ok).1.saveTimes = dm.saveTimes) ∧
    (∀ (dm : DataManager) (now : ℚ), gateOpenSpec dm now →
      (resetAllData dm now true).1.saveTimes = dm.saveTimes ++ [now]) ∧
    (∀ (dm : DataManager) (now : ℚ) (ok : Bool), ¬ gateOpenSpec dm now →
      (resetAllData dm now ok).1.saveTimes = dm.saveTimes) ∧
    (letI dm1 := (addOrUpdateVictim initDM ⟨1, 1, 1, "10:00", -60⟩ "T0" 0 true).1
     letI dm2 := (addOrUpdateVictim dm1 ⟨2, 2, 2, "10:01", -61⟩ "T1" 10 true).1
     letI dm3 := (addOrUpdateVictim dm2 ⟨3, 3, 3, "10:02", -62⟩ "T2" 40 true).1
     dm2.saveTimes = [0] ∧
     dm3.saveTimes = [0, 40] ∧
     dm3.disk = some dm3.victims ∧
     dm3.victims.length = 3) := by
  refine ⟨?_, ?_, ?_, ?_, ?_, ?_, ?_⟩
  · intro dm p nowStr now h
    rcases hl : alookup p.id dm.victims with _ | v <;>
      simp only [addOrUpdateVictim, hl] <;>
      exact autoSave_saveTimes_of_gate _ now h
  · intro dm p nowStr now ok h
    rcases hl : alookup p.id dm.victims with _ | v <;>
      simp only [addOrUpdateVictim, hl] <;>
      exact autoSave_saveTimes_of_closed _ now ok h
  · intro dm vid operator notes nowStr now v hl h
    simp only [markRescued, hl]
    exact autoSave_saveTimes_of_gate _ now h
  · intro dm vid operator notes nowStr now ok v hl h
    simp only [markRescued, hl]
    exact autoSave_saveTimes_of_closed _ now ok h
  · intro dm now h
    simp only [resetAllData]
    exact autoSave_saveTimes_of_gate _ now h
  · intro dm now ok h
    simp only [resetAllData]
    exact autoSave_saveTimes_of_closed _ now ok h
  · refine ⟨?_, ?_, ?_, ?_⟩ <;>
      norm_num [addOrUpdateVictim, alookup, aupdate, autoSave, saveToFile, initDM,
        BACKUP_INTERVAL_SECONDS]

/-- Witness for C7: the gate is open on a fresh store, so the first mutating
call writes. -/
theorem auto_save_gating_witness :
    gateOpenSpec initDM 0 ∧
    (addOrUpdateVictim initDM ⟨1, 1, 1, "10:00", -60⟩ "T0" 0 true).1.saveTimes =
      initDM.saveTimes ++ [0] :=
  ⟨Or.inl rfl,
    auto_save_gating.1 initDM ⟨1, 1, 1, "10:00", -60⟩ "T0" 0 (Or.inl rfl)⟩

/-- C8 (amended): `reset_all_data` clears the in-memory table and runs the
auto-save check; when the gate is closed (a successful save happened less
than 30 seconds ago) the backup file is left unchanged, so it still holds
the last-saved snapshot, and an immediate `load_from_file` restores that
snapshot — which equals the just-cleared table only if the table had not
changed since the last save; when the gate is open the reset rewrites the
backup with the now-empty table. -/
theorem reset_persistence_frame :
    (∀ (dm : DataManager) (now : ℚ) (ok : Bool) (tb : ℚ),
      dm.lastBackupTime = some tb →
      now - tb < BACKUP_INTERVAL_SECONDS →
      (resetAllData dm now ok).1.victims = [] ∧
      (resetAllData dm now ok).1.disk = dm.disk ∧
      (resetAllData dm now ok).1.lastBackupTime = dm.lastBackupTime ∧
      (∀ snap, dm.disk = some snap →
        (loadFromFile (resetAllData dm now ok).1).1.victims = snap) ∧
      (dm.disk = some dm.victims →
        (loadFromFile (resetAllData dm now ok).1).1.victims = dm.victims)) ∧
    (∀ (dm : DataManager) (now : ℚ), gateOpenSpec dm now →
      (resetAllData dm now true).1.disk = some []) := by
  constructor
  · intro dm now ok tb htb hlt
    have hclosed : ¬ gateOpenSpec dm now := by
      rintro (h | ⟨t, ht, hge⟩)
      · rw [htb] at h
        exact Option.noConfusion h
      · rw [htb] at ht
        have := Option.some.inj ht
        subst this
        exact absurd hge (not_le.mpr hlt)
    have hv : (resetAllData dm now ok).1.victims = [] := by
      simp only [resetAllData, autoSave_victims]
    have hd := autoSave_disk_of_closed
      { dm with victims := [] } now ok hclosed
    have hdisk : (resetAllData dm now ok).1.disk = dm.disk := hd.1
    refine ⟨hv, hdisk, hd.2, ?_, ?_⟩
    · intro snap hsnap
      simp only [loadFromFile, hdisk, hsnap]
    · intro hsnap
      simp only [loadFromFile, hdisk, hsnap]
  · intro dm now h
    simp only [resetAllData]
    exact (autoSave_disk_of_gate { dm with victims := [] } now h).1

/-- Witness for C8 (amended): a closed-gate reset right after a first save
leaves the backup file holding that first snapshot. -/
theorem reset_persistence_frame_witness :
    (addOrUpdateVictim initDM ⟨1, 1, 1, "10:00", -60⟩ "T0" 0 true).1.lastBackupTime =
      some 0 ∧
    ((10 : ℚ) - 0 < BACKUP_INTERVAL_SECONDS) ∧
    (resetAllData (addOrUpdateVictim initDM ⟨1, 1, 1, "10:00", -60⟩ "T0" 0 true).1
      10 true).1.victims = [] ∧
    (resetAllData (addOrUpdateVictim initDM ⟨1, 1, 1, "10:00", -60⟩ "T0" 0 true).1
      10 true).1.disk =
      (addOrUpdateVictim initDM ⟨1, 1, 1, "10:00", -60⟩ "T0" 0 true).1.disk := by
  have h1 : (addOrUpdateVictim initDM ⟨1, 1, 1, "10:00", -60⟩ "T0" 0 true).1.lastBackupTime =
      some 0 := by
    norm_num [addOrUpdateVictim, alookup, autoSave, saveToFile, initDM]
  have h2 : (10 : ℚ) - 0 < BACKUP_INTERVAL_SECONDS := by
    norm_num [BACKUP_INTERVAL_SECONDS]
  have h3 := reset_persistence_frame.1
    (addOrUpdateVictim initDM ⟨1, 1, 1, "10:00", -60⟩ "T0" 0 true).1 10 true 0 h1 h2
  exact ⟨h1, h2, h3.1, h3.2.1⟩

/-- Counterexample for C8 as stated: with one record saved at `t = 0`, a
second record ingested at `t = 10` (gated out of the snapshot) and a reset at
`t = 20` (gate still closed), the load performed immediately after the reset
restores only the one saved record — not the two records that were just
cleared. -/
theorem reset_persistence_frame_cex :
    (addOrUpdateVictim (addOrUpdateVictim initDM ⟨1, 1, 1, "10:00", -60⟩ "T0" 0 true).1
      ⟨2, 2, 2, "10:01", -61⟩ "T1" 10 true).1.lastBackupTime = some 0 ∧
    ((20 : ℚ) - 0 < BACKUP_INTERVAL_SECONDS) ∧
    (addOrUpdateVictim (addOrUpdateVictim initDM ⟨1, 1, 1, "10:00", -60⟩ "T0" 0 true).1
      ⟨2, 2, 2, "10:01", -61⟩ "T1" 10 true).1.victims.length = 2 ∧
    (resetAllData (addOrUpdateVictim
      (addOrUpdateVictim initDM ⟨1, 1, 1, "10:00", -60⟩ "T0" 0 true).1
      ⟨2, 2, 2, "10:01", -61⟩ "T1" 10 true).1 20 true).1.victims = [] ∧
    (loadFromFile (resetAllData (addOrUpdateVictim
      (addOrUpdateVictim initDM ⟨1, 1, 1, "10:00", -60⟩ "T0" 0 true).1
      ⟨2, 2, 2, "10:01", -61⟩ "T1" 10 true).1 20 true).1).1.victims.length = 1 ∧
    (loadFromFile (resetAllData (addOrUpdateVictim
      (addOrUpdateVictim initDM ⟨1, 1, 1, "10:00", -60⟩ "T0" 0 true).1
      ⟨2, 2, 2, "10:01", -61⟩ "T1" 10 true).1 20 true).1).1.victims ≠
      (addOrUpdateVictim (addOrUpdateVictim initDM ⟨1, 1, 1, "10:00", -60⟩ "T0" 0 true).1
        ⟨2, 2, 2, "10:01", -61⟩ "T1" 10 true).1.victims := by
  refine ⟨?_, ?_, ?_, ?_, ?_, ?_⟩
  · norm_num [addOrUpdateVictim, alookup, aupdate, autoSave, saveToFile, initDM,
      BACKUP_INTERVAL_SECONDS]
  · norm_num [BACKUP_INTERVAL_SECONDS]
  · norm_num [addOrUpdateVictim, alookup, aupdate, autoSave, saveToFile, initDM,
      BACKUP_INTERVAL_SECONDS]
  · norm_num [addOrUpdateVictim, resetAllData, alookup, aupdate, autoSave,
      saveToFile, initDM, BACKUP_INTERVAL_SECONDS]
  · norm_num [addOrUpdateVictim, resetAllData, loadFromFile, alookup, aupdate,
      autoSave, saveToFile, initDM, BACKUP_INTERVAL_SECONDS]
  · apply ne_of_apply_ne List.length
    norm_num [addOrUpdateVictim, resetAllData, loadFromFile, alookup, aupdate,
      autoSave, saveToFile, initDM, BACKUP_INTERVAL_SECONDS]

theorem validatePacket_eq_true_iff (p : Packet) :
    validatePacket p = true ↔
      (MIN_VICTIM_ID ≤ p.id ∧ p.id ≤ MAX_VICTIM_ID ∧
       VALID_LAT_MIN ≤ p.lat ∧ p.lat ≤ VALID_LAT_MAX ∧
       VALID_LON_MIN ≤ p.lon ∧ p.lon ≤ VALID_LON_MAX) := by
  unfold validatePacket
  by_cases h1 : p.id < MIN_VICTIM_ID ∨ p.id > MAX_VICTIM_ID
  · rw [if_pos h1]
    refine iff_of_false (by simp) ?_
    rintro ⟨ha, hb, _⟩
    rcases h1 with h | h
    · exact absurd ha (not_le.mpr h)
    · exact absurd hb (not_le.mpr h)
  · rw [if_neg h1]
    by_cases h2 : VALID_LAT_MIN ≤ p.lat ∧ p.lat ≤ VALID_LAT_MAX
    · rw [if_neg (not_not_intro h2)]
      by_cases h3 : VALID_LON_MIN ≤ p.lon ∧ p.lon ≤ VALID_LON_MAX
      · rw [if_neg (not_not_intro h3)]
        push_neg at h1
        exact iff_of_true rfl ⟨h1.1, h1.2, h2.1, h2.2, h3.1, h3.2⟩
      · rw [if_pos h3]
        refine iff_of_false (by simp) ?_
        rintro ⟨_, _, _, _, he, hf⟩
        exact h3 ⟨he, hf⟩
    · rw [if_pos h2]
      refine iff_of_false (by simp) ?_
      rintro ⟨_, _, hc, hd, _⟩
      exact h2 ⟨hc, hd⟩

/-- C4: Packet-parser acceptance set.  `_parse_packet` yields a packet iff
the trimmed line starts with a brace, the line decodes as JSON,
`ID`/`LAT`/`LON`/`TIME` are all present, the `int()`/`float()` coercions of
`ID`/`LAT`/`LON` succeed (string coercion of `TIME` always succeeds), the
`RSSI` handling succeeds (coercion when present, `-999` when absent), the
coerced ID lies in `[MIN_VICTIM_ID, MAX_VICTIM_ID] = [1, 9999]`, and the
coordinates lie in `[-90, 90]` / `[-180, 180]`; otherwise it yields nothing.
A missing `RSSI` defaults to `-999`, an integer `RSSI` of any value passes
(no range validation at this layer), and coordinates of exactly `(0, 0)`
are accepted. -/
theorem parse_packet_acceptance :
    (∀ (raw : String) (decoded : Option (List (String × JVal))),
      (∃ p, parsePacket raw decoded = some p) ↔
        (startsWithLBrace (pyStrip raw) = true ∧
         ∃ obj idv latv lonv timev idn lat lon r,
           decoded = some obj ∧
           jget obj "ID" = some idv ∧ jget obj "LAT" = some latv ∧
           jget obj "LON" = some lonv ∧ jget obj "TIME" = some timev ∧
           pyInt idv = some idn ∧ pyFloat latv = some lat ∧
           pyFloat lonv = some lon ∧ rssiField obj = some r ∧
           MIN_VICTIM_ID ≤ idn ∧ idn ≤ MAX_VICTIM_ID ∧
           VALID_LAT_MIN ≤ lat ∧ lat ≤ VALID_LAT_MAX ∧
           VALID_LON_MIN ≤ lon ∧ lon ≤ VALID_LON_MAX)) ∧
    (∀ (raw : String) (obj : List (String × JVal)) (p : Packet),
      parsePacket raw (some obj) = some p → jget obj "RSSI" = none →
      p.rssi = -999) ∧
    (∀ (obj : List (String × JVal)) (n : Int),
      jget obj "RSSI" = some (.jint n) → rssiField obj = some n) ∧
    (∃ p, parsePacket "\x7b\"ID\": 1, \"LAT\": 0, \"LON\": 0, \"TIME\": \"10:00\"\x7d"
        (some [("ID", .jint 1), ("LAT", .jint 0), ("LON", .jint 0),
               ("TIME", .jstr "10:00")]) = some p ∧
      p.lat = 0 ∧ p.lon = 0 ∧ p.rssi = -999) := by
  have hmain : ∀ (raw : String) (decoded : Option (List (String × JVal))),
      (∃ p, parsePacket raw decoded = some p) ↔
        (startsWithLBrace (pyStrip raw) = true ∧
         ∃ obj idv latv lonv timev idn lat lon r,
           decoded = some obj ∧
           jget obj "ID" = some idv ∧ jget obj "LAT" = some latv ∧
           jget obj "LON" = some lonv ∧ jget obj "TIME" = some timev ∧
           pyInt idv = some idn ∧ pyFloat latv = some lat ∧
           pyFloat lonv = some lon ∧ rssiField obj = some r ∧
           MIN_VICTIM_ID ≤ idn ∧ idn ≤ MAX_VICTIM_ID ∧
           VALID_LAT_MIN ≤ lat ∧ lat ≤ VALID_LAT_MAX ∧
           VALID_LON_MIN ≤ lon ∧ lon ≤ VALID_LON_MAX) := by
    intro raw decoded
    unfold parsePacket
    by_cases hs : startsWithLBrace (pyStrip raw) = true
    · rw [if_neg (fun hn => hn hs)]
      rcases decoded with _ | obj
      · simp [hs]
      · rcases hID : jget obj "ID" with _ | idv
        · simp [hs, hID]
        · rcases hLAT : jget obj "LAT" with _ | latv
          · simp [hs, hID, hLAT]
          · rcases hLON : jget obj "LON" with _ | lonv
            · simp [hs, hID, hLAT, hLON]
            · rcases hTIME : jget obj "TIME" with _ | timev
              · simp [hs, hID, hLAT, hLON, hTIME]
              · rcases hidn : pyInt idv with _ | idn
                · simp [hs, hID, hLAT, hLON, hTIME, hidn]
                · rcases hlat : pyFloat latv with _ | lat
                  · simp [hs, hID, hLAT, hLON, hTIME, hidn, hlat]
                  · rcases hlon : pyFloat lonv with _ | lon
                    · simp [hs, hID, hLAT, hLON, hTIME, hidn, hlat, hlon]
                    · rcases hr : rssiField obj with _ | r
                      · simp [hs, hID, hLAT, hLON, hTIME, hidn, hlat, hlon, hr]
                      · simp only [hID, hLAT, hLON, hTIME, hidn, hlat, hlon, hr]
                        by_cases hv : validatePacket
                            ⟨idn, lat, lon, pyStr timev, r⟩ = true
                        · refine iff_of_true ⟨_, by rw [if_pos hv]⟩ ?_
                          obtain ⟨b1, b2, b3, b4, b5, b6⟩ :=
                            (validatePacket_eq_true_iff _).mp hv
                          exact ⟨hs, obj, idv, latv, lonv, timev, idn, lat, lon, r,
                            rfl, hID, hLAT, hLON, hTIME, hidn, hlat, hlon, hr,
                            b1, b2, b3, b4, b5, b6⟩
                        · refine iff_of_false ?_ ?_
                          · rintro ⟨p, hp⟩
                            rw [if_neg hv] at hp
                            exact Option.noConfusion hp
                          · rintro ⟨_, obj', idv', latv', lonv', timev', idn', lat',
                              lon', r', hdec', hID', hLAT', hLON', hTIME', hidn',
                              hlat', hlon', hr', b1, b2, b3, b4, b5, b6⟩
                            obtain rfl : obj' = obj :=
                              (Option.some.inj hdec').symm
                            obtain rfl : idv' = idv :=
                              Option.some.inj ((hID ▸ hID') : some idv = some idv').symm
                            obtain rfl : idn' = idn :=
                              Option.some.inj ((hidn ▸ hidn') : some idn = some idn').symm
                            obtain rfl : latv' = latv :=
                              Option.some.inj ((hLAT ▸ hLAT') : some latv = some latv').symm
                            obtain rfl : lat' = lat :=
                              Option.some.inj ((hlat ▸ hlat') : some lat = some lat').symm
                            obtain rfl : lonv' = lonv :=
                              Option.some.inj ((hLON ▸ hLON') : some lonv = some lonv').symm
                            obtain rfl : lon' = lon :=
                              Option.some.inj ((hlon ▸ hlon') : some lon = some lon').symm
                            exact hv ((validatePacket_eq_true_iff _).mpr
                              ⟨b1, b2, b3, b4, b5, b6⟩)
    · rw [if_pos hs]
      simp [hs]
  refine ⟨hmain, ?_, ?_, ?_⟩
  · intro raw obj p hp hnone
    have hex : ∃ q, parsePacket raw (some obj) = some q := ⟨p, hp⟩
    rw [hmain] at hex
    obtain ⟨hs, obj2, idv, latv, lonv, timev, idn, lat, lon, r, hdec, hID, hLAT,
      hLON, hTIME, hidn, hlat, hlon, hr, _⟩ := hex
    injection hdec with hobj
    subst hobj
    have hr999 : rssiField obj = some (-999) := by
      rw [rssiField, hnone]
    -- recompute the successful parse to read off the packet
    unfold parsePacket at hp
    rw [if_neg (fun hn => hn hs)] at hp
    simp only [hID, hLAT, hLON, hTIME, hidn, hlat, hlon, hr999] at hp
    by_cases hv : validatePacket ⟨idn, lat, lon, pyStr timev, -999⟩ = true
    · rw [if_pos hv] at hp
      cases Option.some.inj hp
      rfl
    · rw [if_neg hv] at hp
      exact Option.noConfusion hp
  · intro obj n h
    rw [rssiField, h]
    rfl
  · refine ⟨⟨1, 0, 0, "10:00", -999⟩, ?_, rfl, rfl, rfl⟩
    decide

/-- Witness for C4: the RSSI-defaulting conjunct applied to a concrete
accepted line with no RSSI field. -/
theorem parse_packet_acceptance_witness :
    parsePacket "\x7b\"ID\": 1, \"LAT\": 0, \"LON\": 0, \"TIME\": \"10:00\"\x7d"
      (some [("ID", JVal.jint 1), ("LAT", JVal.jint 0), ("LON", JVal.jint 0),
             ("TIME", JVal.jstr "10:00")]) =
      some ⟨1, 0, 0, "10:00", -999⟩ ∧
    jget [("ID", JVal.jint 1), ("LAT", JVal.jint 0), ("LON", JVal.jint 0),
          ("TIME", JVal.jstr "10:00")] "RSSI" = none ∧
    (⟨1, 0, 0, "10:00", -999⟩ : Packet).rssi = -999 :=
  ⟨by decide, rfl,
    parse_packet_acceptance.2.1
      "\x7b\"ID\": 1, \"LAT\": 0, \"LON\": 0, \"TIME\": \"10:00\"\x7d"
      [("ID", JVal.jint 1), ("LAT", JVal.jint 0), ("LON", JVal.jint 0),
       ("TIME", JVal.jstr "10:00")]
      ⟨1, 0, 0, "10:00", -999⟩ (by decide) rfl⟩

/-- C10: Non-integral IDs are truncated, not rejected.  For a brace-opened
line decoding to an object whose `ID` is a non-integral JSON number `q` and
whose other fields coerce and validate, the parser accepts iff the
`int()`-truncation (toward zero) of `q` lies in `[1, 9999]`, and the
accepted packet's ID is that truncation; in particular `int(5.9) = 5`,
`int(-5.9) = -5`, and a line with `"ID": 5.9` yields a packet with
`ID = 5`. -/
theorem id_truncation_acceptance :
    (∀ (raw : String) (obj : List (String × JVal)) (q : ℚ)
      (latv lonv timev : JVal) (lat lon : ℚ) (r : Int),
      startsWithLBrace (pyStrip raw) = true →
      jget obj "ID" = some (.jfloat q) →
      jget obj "LAT" = some latv → jget obj "LON" = some lonv →
      jget obj "TIME" = some timev →
      pyFloat latv = some lat → pyFloat lonv = some lon →
      rssiField obj = some r →
      q.den ≠ 1 →
      VALID_LAT_MIN ≤ lat → lat ≤ VALID_LAT_MAX →
      VALID_LON_MIN ≤ lon → lon ≤ VALID_LON_MAX →
      ((∃ p, parsePacket raw (some obj) = some p ∧ p.id = ratTrunc q) ↔
        (MIN_VICTIM_ID ≤ ratTrunc q ∧ ratTrunc q ≤ MAX_VICTIM_ID))) ∧
    (ratTrunc (59/10) = 5 ∧ ratTrunc (-(59/10)) = -5) ∧
    (∃ p, parsePacket
        "\x7b\"ID\": 5.9, \"LAT\": 1.0, \"LON\": 1.0, \"TIME\": \"10:00\"\x7d"
        (some [("ID", .jfloat (59/10)), ("LAT", .jfloat 1), ("LON", .jfloat 1),
               ("TIME", .jstr "10:00")]) = some p ∧
      p.id = 5) := by
  refine ⟨?_, ⟨?_, ?_⟩, ?_⟩
  · intro raw obj q latv lonv timev lat lon r hs hID hLAT hLON hTIME hlat hlon hr
      _hq h3 h4 h5 h6
    unfold parsePacket
    rw [if_neg (fun hn => hn hs)]
    have hid : pyInt (.jfloat q) = some (ratTrunc q) := rfl
    simp only [hID, hLAT, hLON, hTIME, hlat, hlon, hr, hid]
    by_cases hv : validatePacket ⟨ratTrunc q, lat, lon, pyStr timev, r⟩ = true
    · refine iff_of_true ⟨_, by rw [if_pos hv], rfl⟩ ?_
      obtain ⟨b1, b2, _⟩ := (validatePacket_eq_true_iff _).mp hv
      exact ⟨b1, b2⟩
    · refine iff_of_false ?_ ?_
      · rintro ⟨p, hp, _⟩
        rw [if_neg hv] at hp
        exact Option.noConfusion hp
      · rintro ⟨b1, b2⟩
        exact hv ((validatePacket_eq_true_iff _).mpr ⟨b1, b2, h3, h4, h5, h6⟩)
  · norm_num [ratTrunc]
    decide
  · norm_num [ratTrunc]
    decide
  · have h59 : ratTrunc (59/10 : ℚ) = 5 := by
      norm_num [ratTrunc]
      decide
    refine ⟨⟨5, 1, 1, "10:00", -999⟩, ?_, rfl⟩
    unfold parsePacket
    rw [if_neg (fun hn => hn (by decide))]
    have hID : jget [("ID", JVal.jfloat (59/10)), ("LAT", JVal.jfloat 1),
        ("LON", JVal.jfloat 1), ("TIME", JVal.jstr "10:00")] "ID" =
        some (.jfloat (59/10)) := rfl
    have hLAT : jget [("ID", JVal.jfloat (59/10)), ("LAT", JVal.jfloat 1),
        ("LON", JVal.jfloat 1), ("TIME", JVal.jstr "10:00")] "LAT" =
        some (.jfloat 1) := rfl
    have hLON : jget [("ID", JVal.jfloat (59/10)), ("LAT", JVal.jfloat 1),
        ("LON", JVal.jfloat 1), ("TIME", JVal.jstr "10:00")] "LON" =
        some (.jfloat 1) := rfl
    have hTIME : jget [("ID", JVal.jfloat (59/10)), ("LAT", JVal.jfloat 1),
        ("LON", JVal.jfloat 1), ("TIME", JVal.jstr "10:00")] "TIME" =
        some (.jstr "10:00") := rfl
    have hRS : rssiField [("ID", JVal.jfloat (59/10)), ("LAT", JVal.jfloat 1),
        ("LON", JVal.jfloat 1), ("TIME", JVal.jstr "10:00")] = some (-999) := rfl
    have hid : pyInt (.jfloat (59/10)) = some 5 := by
      show some (ratTrunc (59/10)) = some 5
      rw [h59]
    have hfl : pyFloat (.jfloat (1 : ℚ)) = some 1 := rfl
    simp only [hID, hLAT, hLON, hTIME, hRS, hid, hfl]
    have hv : validatePacket ⟨5, 1, 1, pyStr (.jstr "10:00"), -999⟩ = true := by
      decide
    rw [if_pos hv]
    rfl

/-- Witness for C10: the truncation acceptance applied at the concrete
`ID = 5.9` object. -/
theorem id_truncation_acceptance_witness :
    ((59 : ℚ)/10).den ≠ 1 ∧
    ((∃ p, parsePacket
        "\x7b\"ID\": 5.9, \"LAT\": 1.0, \"LON\": 1.0, \"TIME\": \"10:00\"\x7d"
        (some [("ID", .jfloat (59/10)), ("LAT", .jfloat 1), ("LON", .jfloat 1),
               ("TIME", .jstr "10:00")]) = some p ∧
        p.id = ratTrunc (59/10)) ↔
      (MIN_VICTIM_ID ≤ ratTrunc (59/10) ∧ ratTrunc (59/10) ≤ MAX_VICTIM_ID)) := by
  refine ⟨by norm_num, ?_⟩
  exact id_truncation_acceptance.1
    "\x7b\"ID\": 5.9, \"LAT\": 1.0, \"LON\": 1.0, \"TIME\": \"10:00\"\x7d"
    [("ID", .jfloat (59/10)), ("LAT", .jfloat 1), ("LON", .jfloat 1),
     ("TIME", .jstr "10:00")]
    (59/10) (.jfloat 1) (.jfloat 1) (.jstr "10:00") 1 1 (-999)
    (by decide) rfl rfl rfl rfl rfl rfl rfl (by norm_num)
    (by norm_num [VALID_LAT_MIN]) (by norm_num [VALID_LAT_MAX])
    (by norm_num [VALID_LON_MIN]) (by norm_num [VALID_LON_MAX])

end FalconResQ
